import Mathlib

/-!
Shallow embedding of the ai_image gateway core (cache fingerprinting,
structured/blob cache stores, per-user rate limiting, and the three backend
adapters) together with proofs about the claims of the specification.

Sources embedded:
  * src/cache_manager.py  (CacheManager: fingerprint, text/file cache wrappers,
    force-refresh header, scoped clear)
  * src/database.py       (DatabaseManager: get_cache / set_cache /
    clear_plugin_cache over the per-adapter cache table)
  * src/minio_client.py   (MinIOManager: get/set/clear of blob objects in the
    per-adapter bucket)
  * src/plugin/plugin_chatgpt.py, plugin_chatterbox.py, plugin_flux.py
    (check_rate_limit and process_request of each adapter)

Conventions: machine time is modeled as an integer tick count (Python
time.time() and SQL CURRENT_TIMESTAMP; only ordered arithmetic on times is
ever used); Python dicts are association lists with unique
string keys; the external providers are oracles passed in as explicit
parameters; a Python exception travelling up to a try/except boundary is an
`Except.error` value.
-/

/-! ### Python values

`PyVal` models the JSON-like Python values that flow through the gateway:
request dictionaries, response dictionaries and the values stored in the
structured cache.  The `obj` constructor stands for a Python object that
`json.dumps` cannot serialize (its field is the type name, used in the
TypeError message).  Floats are carried as rationals; the only floats the
source manipulates are literal defaults such as 1.0 and 7.5, whose decimal
form is exactly representable. -/

inductive PyVal where
  | none
  | bool (b : Bool)
  | int (n : Int)
  | float (q : ℚ)
  | str (s : String)
  | list (elems : List PyVal)
  | dict (kvs : List (String × PyVal))
  | obj (typeName : String)

/-- Python truthiness (`if x:`) for the values of the model. -/
def pyTruthy : PyVal → Bool
  | .none => false
  | .bool b => b
  | .int n => n != 0
  | .float q => q != 0
  | .str s => !s.isEmpty
  | .list xs => !xs.isEmpty
  | .dict kvs => !kvs.isEmpty
  | .obj _ => true

/-- Truthiness of `d.get(k)` results: Python `None` (absent key) is falsy. -/
def optPyTruthy : Option PyVal → Bool
  | Option.none => false
  | some v => pyTruthy v

/-- Model of `request_data.get(key)`: the first binding of `key`, if any.
Requests are dictionaries, so a non-dict value yields nothing. -/
def pyGet (v : PyVal) (key : String) : Option PyVal :=
  match v with
  | .dict kvs => (kvs.find? (fun p => p.1 == key)).map (fun p => p.2)
  | _ => Option.none

/-- Model of `request_data.get(key, default)`. -/
def pyGetD (v : PyVal) (key : String) (default : PyVal) : PyVal :=
  (pyGet v key).getD default

/-- Model of the Python statement `d[key] = x`.  On a dict the first binding
of `key` is replaced (or the binding appended); on any other value Python
raises a TypeError, modeled as an `Except.error`. -/
def pySetKey (v : PyVal) (key : String) (x : PyVal) : Except String PyVal :=
  match v with
  | .dict kvs =>
      .ok (.dict (if kvs.any (fun p => p.1 == key)
        then kvs.map (fun p => if p.1 == key then (key, x) else p)
        else kvs ++ [(key, x)]))
  | _ => .error "object does not support item assignment"

/-- Decidable equality of `Except` values (used to evaluate fingerprint
comparisons on concrete inputs). -/
instance exceptDecEq {ε α : Type} [DecidableEq ε] [DecidableEq α] :
    DecidableEq (Except ε α)
  | .ok a, .ok b =>
      if h : a = b then .isTrue (by rw [h])
      else .isFalse (fun hc => h (Except.ok.inj hc))
  | .error a, .error b =>
      if h : a = b then .isTrue (by rw [h])
      else .isFalse (fun hc => h (Except.error.inj hc))
  | .ok _, .error _ => .isFalse (fun hc => Except.noConfusion hc)
  | .error _, .ok _ => .isFalse (fun hc => Except.noConfusion hc)

/-! ### JSON serialization, `json.dumps(obj, sort_keys=True)`

`cache_manager.generate_cache_key` serializes the payload with
`json.dumps(cache_data, sort_keys=True)` (default separators, ensure_ascii).
The embedding splits that call into two structural passes with the same
composite behaviour: `pyNormalize` sorts the key/value lists of every dict by
key (the lexicographic code-point order `sorted` uses), and `serialize`
renders the resulting value, erroring on a non-serializable `obj` exactly as
`json.dumps` raises TypeError. -/

/-- Lowercase hex digit. -/
def hexChar (n : Nat) : Char :=
  if n < 10 then Char.ofNat (48 + n) else Char.ofNat (87 + n)

/-- Four lowercase hex digits, as in a JSON `\uXXXX` escape. -/
def hex4 (n : Nat) : String :=
  ⟨[hexChar (n / 4096 % 16), hexChar (n / 256 % 16), hexChar (n / 16 % 16), hexChar (n % 16)]⟩

/-- JSON string escaping with `ensure_ascii=True`: the two-character escapes
of the control characters Python special-cases, `\uXXXX` (with a surrogate
pair above the BMP) for the rest of the characters outside 0x20..0x7e. -/
def jsonEscapeChar (c : Char) : String :=
  if c = '"' then "\\\""
  else if c = '\\' then "\\\\"
  else if c = '\n' then "\\n"
  else if c = '\t' then "\\t"
  else if c = '\r' then "\\r"
  else if c.toNat = 8 then "\\b"
  else if c.toNat = 12 then "\\f"
  else if c.toNat < 32 || 127 ≤ c.toNat then
    if c.toNat < 65536 then "\\u" ++ hex4 c.toNat
    else
      let v := c.toNat - 65536
      "\\u" ++ hex4 (55296 + v / 1024) ++ "\\u" ++ hex4 (56320 + v % 1024)
  else String.singleton c

/-- A JSON string literal for `s`. -/
def jsonQuote (s : String) : String :=
  "\"" ++ String.join (s.data.map jsonEscapeChar) ++ "\""

/-- Decimal rendering of the float literals the source uses (den a product of
2s and 5s); `repr` of such a Python float prints exactly this. -/
def decimalOfRat (q : ℚ) : Option String :=
  let sign := if q < 0 then "-" else ""
  let n := q.num.natAbs
  let d := q.den
  (List.range 28).findSome? fun k =>
    if d ∣ n * 10 ^ k then
      let digits := n * 10 ^ k / d
      let intPart := digits / 10 ^ k
      let fracPart := digits % 10 ^ k
      let fracStr := Nat.toDigits 10 fracPart
      let padded := List.replicate (k - fracStr.length) '0' ++ fracStr
      some (sign ++ toString intPart ++ "." ++ ⟨padded⟩)
    else Option.none

/-- Lexicographic code-point comparison of character lists, the string order
Python `sorted` uses on dict keys. -/
def charListLt : List Char → List Char → Bool
  | [], [] => false
  | [], _ :: _ => true
  | _ :: _, [] => false
  | c :: cs, d :: ds =>
      decide (c.toNat < d.toNat) || (decide (c.toNat = d.toNat) && charListLt cs ds)

/-- Python string `<=` (code-point lexicographic). -/
def strLeB (a b : String) : Bool := !(charListLt b.data a.data)

/-- Insert a key/value pair into a key-sorted association list, keeping the
list sorted by the key order `sorted` uses. -/
def insertKV (p : String × PyVal) : List (String × PyVal) → List (String × PyVal)
  | [] => [p]
  | q :: qs => if strLeB p.1 q.1 then p :: q :: qs else q :: insertKV p qs

/-- Sort an association list by key (the Python `sorted` applied to dict
items under `sort_keys=True`; keys of a Python dict are unique). -/
def sortKVs : List (String × PyVal) → List (String × PyVal)
  | [] => []
  | p :: ps => insertKV p (sortKVs ps)

mutual

/-- Key-sort normalization: the value with every dict ordered by key, the
ordering `json.dumps(.., sort_keys=True)` applies at each nesting level. -/
def pyNormalize : PyVal → PyVal
  | .dict kvs => .dict (sortKVs (pyNormalizeKVs kvs))
  | .list xs => .list (pyNormalizeList xs)
  | v => v

/-- Key-sort normalization of the elements of a list value. -/
def pyNormalizeList : List PyVal → List PyVal
  | [] => []
  | x :: xs => pyNormalize x :: pyNormalizeList xs

/-- Key-sort normalization of the values of an association list. -/
def pyNormalizeKVs : List (String × PyVal) → List (String × PyVal)
  | [] => []
  | (k, v) :: ps => (k, pyNormalize v) :: pyNormalizeKVs ps

end

/-- Comma-space separator of `json.dumps` with default separators. -/
def joinComma : List String → String
  | [] => ""
  | [s] => s
  | s :: rest => s ++ ", " ++ joinComma rest

mutual

/-- Rendering pass of `json.dumps` (dicts already key-sorted by `pyNormalize`):
JSON text on success, the TypeError message on a non-serializable object. -/
def serialize : PyVal → Except String String
  | .none => .ok "null"
  | .bool true => .ok "true"
  | .bool false => .ok "false"
  | .int n => .ok (toString n)
  | .float q =>
      match decimalOfRat q with
      | some s => .ok s
      | Option.none => .error "float repr outside the modeled fragment"
  | .str s => .ok (jsonQuote s)
  | .list xs =>
      match serializeList xs with
      | .ok parts => .ok ("[" ++ joinComma parts ++ "]")
      | .error e => .error e
  | .dict kvs =>
      match serializeKVs kvs with
      | .ok parts => .ok ("\x7b" ++ joinComma parts ++ "\x7d")
      | .error e => .error e
  | .obj t => .error ("Object of type " ++ t ++ " is not JSON serializable")

/-- Rendering of the elements of a JSON array, failing on the first
non-serializable element. -/
def serializeList : List PyVal → Except String (List String)
  | [] => .ok []
  | x :: xs =>
      match serialize x with
      | .error e => .error e
      | .ok s =>
          match serializeList xs with
          | .error e => .error e
          | .ok rest => .ok (s :: rest)

/-- Rendering of the `"key": value` members of a JSON object. -/
def serializeKVs : List (String × PyVal) → Except String (List String)
  | [] => .ok []
  | (k, v) :: ps =>
      match serialize v with
      | .error e => .error e
      | .ok s =>
          match serializeKVs ps with
          | .error e => .error e
          | .ok rest => .ok ((jsonQuote k ++ ": " ++ s) :: rest)

end

/-- Model of `json.dumps(v, sort_keys=True)`. -/
def json_dumps_sorted (v : PyVal) : Except String String :=
  serialize (pyNormalize v)

/-! ### SHA-256 (hashlib.sha256(..).hexdigest())

Executable SHA-256 over natural numbers; 32-bit words are naturals below
2^32 and every operation reduces with the accelerated kernel arithmetic. -/

/-- Truncate to a 32-bit word. -/
def w32 (n : Nat) : Nat := n % 4294967296

/-- Bitwise complement of a 32-bit word. -/
def not32 (a : Nat) : Nat := 4294967295 - a

/-- Right rotation of a 32-bit word. -/
def rotr32 (n x : Nat) : Nat := w32 (x >>> n + (x % 2 ^ n) <<< (32 - n))

/-- SHA-256 Σ0. -/
def bsig0 (x : Nat) : Nat := rotr32 2 x ^^^ rotr32 13 x ^^^ rotr32 22 x

/-- SHA-256 Σ1. -/
def bsig1 (x : Nat) : Nat := rotr32 6 x ^^^ rotr32 11 x ^^^ rotr32 25 x

/-- SHA-256 σ0. -/
def ssig0 (x : Nat) : Nat := rotr32 7 x ^^^ rotr32 18 x ^^^ x >>> 3

/-- SHA-256 σ1. -/
def ssig1 (x : Nat) : Nat := rotr32 17 x ^^^ rotr32 19 x ^^^ x >>> 10

/-- SHA-256 choose. -/
def chf (x y z : Nat) : Nat := (x &&& y) ^^^ (not32 x &&& z)

/-- SHA-256 majority. -/
def majf (x y z : Nat) : Nat := (x &&& y) ^^^ (x &&& z) ^^^ (y &&& z)

/-- SHA-256 round constants. -/
def shaK : List Nat :=
  [1116352408, 1899447441, 3049323471, 3921009573, 961987163, 1508970993, 2453635748, 2870763221,
   3624381080, 310598401, 607225278, 1426881987, 1925078388, 2162078206, 2614888103, 3248222580,
   3835390401, 4022224774, 264347078, 604807628, 770255983, 1249150122, 1555081692, 1996064986,
   2554220882, 2821834349, 2952996808, 3210313671, 3336571891, 3584528711, 113926993, 338241895,
   666307205, 773529912, 1294757372, 1396182291, 1695183700, 1986661051, 2177026350, 2456956037,
   2730485921, 2820302411, 3259730800, 3345764771, 3516065817, 3600352804, 4094571909, 275423344,
   430227734, 506948616, 659060556, 883997877, 958139571, 1322822218, 1537002063, 1747873779,
   1955562222, 2024104815, 2227730452, 2361852424, 2428436474, 2756734187, 3204031479, 3329325298]

/-- SHA-256 initial state. -/
def shaH0 : List Nat :=
  [1779033703, 3144134277, 1013904242, 2773480762, 1359893119, 2600822924, 528734635, 1541459225]

/-- Big-endian 64-bit length field of the padding. -/
def be64 (n : Nat) : List Nat :=
  [n >>> 56 % 256, n >>> 48 % 256, n >>> 40 % 256, n >>> 32 % 256,
   n >>> 24 % 256, n >>> 16 % 256, n >>> 8 % 256, n % 256]

/-- SHA-256 padding: 0x80, zeros to 56 mod 64, then the bit length. -/
def shaPad (msg : List Nat) : List Nat :=
  let len := msg.length
  let zeros := (56 + 64 - ((len + 1) % 64)) % 64
  msg ++ 128 :: List.replicate zeros 0 ++ be64 (8 * len)

/-- Split into chunks of 64 bytes (fuel-driven so that it reduces). -/
def chunksAux : Nat → List Nat → List (List Nat)
  | 0, _ => []
  | _, [] => []
  | fuel+1, l => l.take 64 :: chunksAux fuel (l.drop 64)

/-- The 64-byte blocks of a padded message. -/
def chunks64 (l : List Nat) : List (List Nat) := chunksAux l.length l

/-- The 16 big-endian message words of one block. -/
def words16 (block : List Nat) : List Nat :=
  (List.range 16).map fun i =>
    block.getD (4*i) 0 <<< 24 + block.getD (4*i+1) 0 <<< 16 +
    block.getD (4*i+2) 0 <<< 8 + block.getD (4*i+3) 0

/-- Message-schedule extension from 16 to 64 words. -/
def extendW : Nat → List Nat → List Nat
  | 0, w => w
  | k+1, w =>
    let i := w.length
    let nw := w32 (ssig1 (w.getD (i-2) 0) + w.getD (i-7) 0 + ssig0 (w.getD (i-15) 0) + w.getD (i-16) 0)
    extendW k (w ++ [nw])

/-- One SHA-256 round. -/
def compressStep (st : Nat × Nat × Nat × Nat × Nat × Nat × Nat × Nat) (kw : Nat × Nat) :
    Nat × Nat × Nat × Nat × Nat × Nat × Nat × Nat :=
  let (a, b, c, d, e, f, g, h) := st
  let t1 := w32 (h + bsig1 e + chf e f g + kw.1 + kw.2)
  let t2 := w32 (bsig0 a + majf a b c)
  (w32 (t1 + t2), a, b, c, w32 (d + t1), e, f, g)

/-- SHA-256 compression of one block into the running state. -/
def compressBlock (hs : List Nat) (block : List Nat) : List Nat :=
  let w := extendW 48 (words16 block)
  let init := (hs.getD 0 0, hs.getD 1 0, hs.getD 2 0, hs.getD 3 0,
               hs.getD 4 0, hs.getD 5 0, hs.getD 6 0, hs.getD 7 0)
  let (a, b, c, d, e, f, g, h) := (shaK.zip w).foldl compressStep init
  [w32 (hs.getD 0 0 + a), w32 (hs.getD 1 0 + b), w32 (hs.getD 2 0 + c), w32 (hs.getD 3 0 + d),
   w32 (hs.getD 4 0 + e), w32 (hs.getD 5 0 + f), w32 (hs.getD 6 0 + g), w32 (hs.getD 7 0 + h)]

/-- SHA-256 digest (32 bytes) of a byte string. -/
def sha256digest (msg : List Nat) : List Nat :=
  let hs := (chunks64 (shaPad msg)).foldl compressBlock shaH0
  hs.foldr (fun h acc => h >>> 24 % 256 :: h >>> 16 % 256 :: h >>> 8 % 256 :: h % 256 :: acc) []

/-- Lowercase hex rendering of a byte string. -/
def hexdigest (bytes : List Nat) : String :=
  ⟨bytes.foldr (fun b acc => hexChar (b / 16) :: hexChar (b % 16) :: acc) []⟩

/-- UTF-8 bytes of one code point (`str.encode()`). -/
def utf8Bytes (c : Nat) : List Nat :=
  if c < 128 then [c]
  else if c < 2048 then [192 + c / 64, 128 + c % 64]
  else if c < 65536 then [224 + c / 4096, 128 + c / 64 % 64, 128 + c % 64]
  else [240 + c / 262144, 128 + c / 4096 % 64, 128 + c / 64 % 64, 128 + c % 64]

/-- UTF-8 encoding of a string. -/
def strBytes (s : String) : List Nat := (s.data.map (fun ch => utf8Bytes ch.toNat)).flatten

/-- Hex digest of SHA-256 over the UTF-8 bytes, as `hashlib.sha256(s.encode()).hexdigest()` computes. -/
def sha256hex (s : String) : String := hexdigest (sha256digest (strBytes s))

/-! ### CacheManager.generate_cache_key (src/cache_manager.py lines 18-25) -/

/-- The cache fingerprint: SHA-256 of the key-sorted JSON serialization of
`{"request": request_data, "user_id": user_id}`; serialization failure is the
TypeError `json.dumps` raises on non-serializable input. -/
def generate_cache_key (request_data : PyVal) (user_id : String) : Except String String :=
  match json_dumps_sorted (.dict [("request", request_data), ("user_id", .str user_id)]) with
  | .error e => .error e
  | .ok cache_str => .ok (sha256hex cache_str)

/-! ### DatabaseManager (src/database.py): the per-adapter structured cache

One row of the `cache_{plugin}` table.  `id SERIAL` and insertion order are
modeled by the position in the list; `cache_key` carries a UNIQUE
constraint, so a table reachable from the source has at most one row per
key.  JSONB round-trips of the payload columns are identities on the value,
so the columns hold `PyVal`s directly. -/

structure CacheEntry where
  cache_key : String
  request_data : PyVal
  response_data : PyVal
  user_id : String
  created_at : ℤ
  accessed_at : ℤ

/-- DatabaseManager.get_cache (lines 59-72): `UPDATE .. SET accessed_at =
CURRENT_TIMESTAMP WHERE cache_key = $1 RETURNING response_data`, then
`fetchval` (first returned row or None) filtered by `result if result else
None`.  Returns the fetched value and the updated table. -/
def get_cache (tbl : List CacheEntry) (cache_key : String) (now : ℤ) :
    Option PyVal × List CacheEntry :=
  let updated := tbl.map fun e =>
    if e.cache_key == cache_key then { e with accessed_at := now } else e
  let fetched := (tbl.find? (fun e => e.cache_key == cache_key)).map (fun e => e.response_data)
  match fetched with
  | some v => (if pyTruthy v then some v else Option.none, updated)
  | Option.none => (Option.none, updated)

/-- DatabaseManager.set_cache (lines 74-95): `INSERT .. ON CONFLICT
(cache_key) DO UPDATE SET response_data = $2, accessed_at =
CURRENT_TIMESTAMP`.  The bind parameters are `$1 = cache_key`,
`$2 = request_data`, `$3 = response_data`, `$4 = user_id`; the conflict
branch therefore writes the request payload (`$2`) into the
`response_data` column. -/
def set_cache (tbl : List CacheEntry) (cache_key : String)
    (request_data response_data : PyVal) (user_id : String) (now : ℤ) :
    List CacheEntry :=
  if tbl.any (fun e => e.cache_key == cache_key) then
    tbl.map fun e =>
      if e.cache_key == cache_key then
        { e with response_data := request_data, accessed_at := now }
      else e
  else
    tbl ++ [{ cache_key := cache_key, request_data := request_data,
              response_data := response_data, user_id := user_id,
              created_at := now, accessed_at := now }]

/-- DatabaseManager.clear_plugin_cache (lines 97-108): `DELETE .. WHERE
user_id = $1` when a truthy user id is given, `DELETE` of every row
otherwise (the guard is Python truthiness, so an empty-string user id takes
the delete-all branch). -/
def db_clear_plugin_cache (tbl : List CacheEntry) (user_id : Option String) :
    List CacheEntry :=
  match user_id with
  | some u => if u.isEmpty then [] else tbl.filter (fun e => e.user_id != u)
  | Option.none => []

/-! ### MinIOManager (src/minio_client.py): the per-adapter blob cache

One object of the `{plugin}-cache` bucket. -/

structure BlobEntry where
  object_name : String
  data : List Nat
  content_type : String

/-- MinIOManager.get_file_cache: `get_object(bucket, key).read()`, None when
the key does not exist (and on any other S3 error, which the source also
turns into None). -/
def minio_get_file_cache (bucket : List BlobEntry) (cache_key : String) :
    Option (List Nat) :=
  (bucket.find? (fun o => o.object_name == cache_key)).map (fun o => o.data)

/-- MinIOManager.set_file_cache: `put_object` stores the bytes with the given
content type, overwriting any object of the same name. -/
def minio_set_file_cache (bucket : List BlobEntry) (cache_key : String)
    (file_data : List Nat) (content_type : String) : List BlobEntry :=
  bucket.filter (fun o => o.object_name != cache_key) ++
    [{ object_name := cache_key, data := file_data, content_type := content_type }]

/-- MinIOManager.clear_plugin_cache: removes every object of the bucket. -/
def minio_clear_plugin_cache (_bucket : List BlobEntry) : List BlobEntry := []

/-! ### CacheManager (src/cache_manager.py)

Each wrapper takes the outcome of the underlying store call as an
`Except String` value: `.error e` is an exception the store raised, which
the try/except of the wrapper swallows (lines 27-79).  These four functions
return `Except` so that "never propagates an exception" is expressible; the
theorems show the result is always `.ok`. -/

/-- CacheManager.get_text_cache (lines 27-40): disabled cache short-circuits
to None; a store exception is logged and falls through to `return None`;
a fetched falsy value also falls through. -/
def cm_get_text_cache (cache_enabled : Bool)
    (store : Except String (Option PyVal)) : Except String (Option PyVal) :=
  if !cache_enabled then .ok Option.none
  else
    match store with
    | .error _ => .ok Option.none
    | .ok (some v) => if pyTruthy v then .ok (some v) else .ok Option.none
    | .ok Option.none => .ok Option.none

/-- CacheManager.set_text_cache (lines 42-52): disabled cache returns; a
store exception is logged and swallowed. -/
def cm_set_text_cache (cache_enabled : Bool) (store : Except String Unit) :
    Except String Unit :=
  if !cache_enabled then .ok ()
  else
    match store with
    | .error _ => .ok ()
    | .ok () => .ok ()

/-- CacheManager.get_file_cache (lines 54-67): as `cm_get_text_cache` but for
blob bytes (falsy means the empty byte string). -/
def cm_get_file_cache (cache_enabled : Bool)
    (store : Except String (Option (List Nat))) : Except String (Option (List Nat)) :=
  if !cache_enabled then .ok Option.none
  else
    match store with
    | .error _ => .ok Option.none
    | .ok (some d) => if !d.isEmpty then .ok (some d) else .ok Option.none
    | .ok Option.none => .ok Option.none

/-- CacheManager.set_file_cache (lines 69-79): as `cm_set_text_cache`. -/
def cm_set_file_cache (cache_enabled : Bool) (store : Except String Unit) :
    Except String Unit :=
  if !cache_enabled then .ok ()
  else
    match store with
    | .error _ => .ok ()
    | .ok () => .ok ()

/-- CacheManager.get_text_cache applied to the table-backed store of
database.py (the composition the request path runs when the database does
not fail): result and updated table. -/
def get_text_cache (cache_enabled : Bool) (tbl : List CacheEntry)
    (cache_key : String) (now : ℤ) : Option PyVal × List CacheEntry :=
  if !cache_enabled then (Option.none, tbl)
  else
    match get_cache tbl cache_key now with
    | (some v, tbl1) => (if pyTruthy v then some v else Option.none, tbl1)
    | (Option.none, tbl1) => (Option.none, tbl1)

/-- CacheManager.set_text_cache applied to the table-backed store. -/
def set_text_cache (cache_enabled : Bool) (tbl : List CacheEntry)
    (cache_key : String) (request_data response_data : PyVal)
    (user_id : String) (now : ℤ) : List CacheEntry :=
  if !cache_enabled then tbl
  else set_cache tbl cache_key request_data response_data user_id now

/-- CacheManager.get_file_cache applied to the bucket-backed store of
minio_client.py. -/
def get_file_cache (cache_enabled : Bool) (bucket : List BlobEntry)
    (cache_key : String) : Option (List Nat) :=
  if !cache_enabled then Option.none
  else
    match minio_get_file_cache bucket cache_key with
    | some d => if !d.isEmpty then some d else Option.none
    | Option.none => Option.none

/-- CacheManager.set_file_cache applied to the bucket-backed store. -/
def set_file_cache (cache_enabled : Bool) (bucket : List BlobEntry)
    (cache_key : String) (file_data : List Nat) (content_type : String) :
    List BlobEntry :=
  if !cache_enabled then bucket
  else minio_set_file_cache bucket cache_key file_data content_type

/-- The per-adapter store state: the structured cache table of each adapter
name and the blob bucket of each adapter name. -/
structure Stores where
  text : String → List CacheEntry
  blob : String → List BlobEntry

/-- CacheManager.clear_plugin_cache (lines 89-102): always clears the
structured table of the adapter (scoped to the user when one is given); the
blob bucket is cleared only when no user id is given, because the blob store
has no per-user ownership. -/
def cm_clear_plugin_cache (st : Stores) (plugin_name : String)
    (user_id : Option String) : Stores :=
  let st1 : Stores :=
    { st with text := fun p =>
        if p == plugin_name then db_clear_plugin_cache (st.text p) user_id
        else st.text p }
  if (user_id.getD "").isEmpty then
    { st1 with blob := fun p =>
        if p == plugin_name then minio_clear_plugin_cache (st1.blob p)
        else st1.blob p }
  else st1

/-- CacheManager.should_force_refresh (lines 81-87): a header whose name
matches the configured force-refresh header case-insensitively and whose
value is a truthy token. -/
def should_force_refresh (force_refresh_header : String)
    (headers : List (String × String)) : Bool :=
  headers.any fun h =>
    h.1.toLower == force_refresh_header.toLower &&
      (h.2.toLower == "true" || h.2.toLower == "1" || h.2.toLower == "yes")

/-! ### Per-user sliding-window rate limiting

`check_rate_limit` is textually identical in the three adapters up to the
threshold (plugin_chatgpt.py lines 39-59 with
`settings.plugin_rate_limit_per_minute`, plugin_chatterbox.py lines 54-74
with 10, plugin_flux.py lines 23-42 with 5): prune the timestamps of the
user older than `now - 60`, reject when the survivors reach the threshold,
otherwise record `now` and admit. -/

/-- The in-memory `self.rate_limiter` dict: user id to recorded call
timestamps. -/
abbrev RateDict := List (String × List ℤ)

/-- The recorded window of a user (`self.rate_limiter[user_id]`, empty when
the user has no entry yet). -/
def rlWindow (rl : RateDict) (user_id : String) : List ℤ :=
  match rl.find? (fun p => p.1 == user_id) with
  | some p => p.2
  | Option.none => []

/-- The pruning comprehension: keep `req_time > now - 60`. -/
def rl_prune (now : ℤ) (ts : List ℤ) : List ℤ :=
  ts.filter (fun t => decide (now - 60 < t))

/-- Store a new timestamp list under a user (dict item assignment). -/
def rlStore (rl : RateDict) (user_id : String) (ts : List ℤ) : RateDict :=
  if rl.any (fun p => p.1 == user_id) then
    rl.map (fun p => if p.1 == user_id then (user_id, ts) else p)
  else rl ++ [(user_id, ts)]

/-- check_rate_limit of the adapters: returns the admission flag and the
updated rate-limiter dict. -/
def check_rate_limit (limit : Nat) (rl : RateDict) (user_id : String)
    (now : ℤ) : Bool × RateDict :=
  let kept := rl_prune now (rlWindow rl user_id)
  if limit ≤ kept.length then (false, rlStore rl user_id kept)
  else (true, rlStore rl user_id (kept ++ [now]))

/-- A sequence of admission checks for one user at the given call times. -/
def rl_run (limit : Nat) (rl : RateDict) (user_id : String) :
    List ℤ → RateDict × List Bool
  | [] => (rl, [])
  | t :: ts =>
    let step := check_rate_limit limit rl user_id t
    let rest := rl_run limit step.2 user_id ts
    (rest.1, step.1 :: rest.2)

/-! ### Shared adapter plumbing -/

/-- The standard base64 alphabet. -/
def b64chars : List Char :=
  "ABCDEFGHIJKLMNOPQRSTUVWXYZabcdefghijklmnopqrstuvwxyz0123456789+/".data

/-- One base64 digit. -/
def b64c (n : Nat) : Char := b64chars.getD n 'A'

/-- Standard base64 text of a byte string, as `base64.b64encode(data).decode()` computes. -/
def base64encode : List Nat → String
  | [] => ""
  | [a] => ⟨[b64c (a >>> 2), b64c ((a % 4) <<< 4), '=', '=']⟩
  | [a, b] => ⟨[b64c (a >>> 2), b64c ((a % 4) <<< 4 + b >>> 4), b64c ((b % 16) <<< 2), '=']⟩
  | a :: b :: c :: rest =>
    (⟨[b64c (a >>> 2), b64c ((a % 4) <<< 4 + b >>> 4),
       b64c ((b % 16) <<< 2 + c >>> 6), b64c (c % 64)]⟩ : String) ++ base64encode rest

mutual

/-- Python `str()` of a value, as interpolated into f-string error
messages. -/
def pyStr : PyVal → String
  | .none => "None"
  | .bool true => "True"
  | .bool false => "False"
  | .int n => toString n
  | .float q => (decimalOfRat q).getD "float"
  | .str s => s
  | .list xs => "[" ++ joinComma (pyReprList xs) ++ "]"
  | .dict kvs => "\x7b" ++ joinComma (pyReprKVs kvs) ++ "\x7d"
  | .obj t => "<" ++ t ++ " object>"

/-- Python `repr()` of a value (container elements print with `repr`). -/
def pyRepr : PyVal → String
  | .str s => String.singleton '\'' ++ s ++ String.singleton '\''
  | .list xs => "[" ++ joinComma (pyReprList xs) ++ "]"
  | .dict kvs => "\x7b" ++ joinComma (pyReprKVs kvs) ++ "\x7d"
  | v => pyStr v

/-- Renders the elements of a list with `repr`. -/
def pyReprList : List PyVal → List String
  | [] => []
  | x :: xs => pyRepr x :: pyReprList xs

/-- Renders the items of a dict with `repr`. -/
def pyReprKVs : List (String × PyVal) → List String
  | [] => []
  | (k, v) :: ps =>
      (String.singleton '\'' ++ k ++ String.singleton '\'' ++ ": " ++ pyRepr v) :: pyReprKVs ps

end

/-- The error dictionaries every adapter returns:
`{"error": msg, "error_type": tag, "from_cache": False}`. -/
def errResult (msg error_type : String) : PyVal :=
  .dict [("error", .str msg), ("error_type", .str error_type),
         ("from_cache", .bool false)]

/-- Outcome of one `httpx` request to an external provider: a timeout
exception, some other exception, or a response carrying a status code, the
parsed JSON body, and the raw content bytes. -/
inductive HttpOutcome where
  | timeout
  | exn (msg : String)
  | resp (status : Nat) (body : PyVal) (content : List Nat)

/-- The Python type name of a value, as comparison TypeError messages print
it. -/
def pyTypeName : PyVal → String
  | .none => "NoneType"
  | .bool _ => "bool"
  | .int _ => "int"
  | .float _ => "float"
  | .str _ => "str"
  | .list _ => "list"
  | .dict _ => "dict"
  | .obj t => t

/-- A single-quote character as a string, for TypeError message texts. -/
def tick : String := String.singleton '\''

/-- Does the pattern occur at the head of the character list? -/
def matchesAt : List Char → List Char → Bool
  | [], _ => true
  | _ :: _, [] => false
  | p :: ps, c :: cs => (p == c) && matchesAt ps cs

/-- Left-to-right non-overlapping replacement on character lists.  Fuel-driven
so that it reduces; the fuel is the length of the scanned list, enough for
every non-empty pattern (the source only substitutes \"from_lang\" and
\"to_lang\"). -/
def pyReplaceAux (pat rep : List Char) : Nat → List Char → List Char
  | 0, l => l
  | _, [] => []
  | fuel+1, c :: cs =>
      if matchesAt pat (c :: cs) then
        rep ++ pyReplaceAux pat rep fuel ((c :: cs).drop pat.length)
      else c :: pyReplaceAux pat rep fuel cs

/-- Python str.replace(old, new): every non-overlapping occurrence replaced,
scanning left to right. -/
def pyStrReplace (s pat rep : String) : String :=
  ⟨pyReplaceAux pat.data rep.data s.data.length s.data⟩

/-! ### ChatGPTPlugin.process_request (src/plugin/plugin_chatgpt.py 61-172)

The OpenAI call is an oracle: `.ok` carries the completion the provider
returned, `.error` an exception message.  The assembly of the outbound
message runs before the validation branches and is modeled by
`gpt_prepare_context` for its failure modes: the TypeError Python raises on
an unhashable context value or a non-string from_lang/to_lang lands in the
blanket handler as api_error before any validation or backend call.  The
assembled text itself only shapes provider input the oracle abstracts over;
every observable of the claims (assembly failures, validation branches,
cache probe and write, call count, result dictionary) is modeled. -/

/-- The completion extract the plugin reads from the OpenAI response. -/
structure ChatCompletion where
  content : String
  prompt_tokens : Nat
  completion_tokens : Nat
  total_tokens : Nat

/-- Observable outcome of one chatgpt process_request call. -/
structure GptOut where
  result : PyVal
  rate_limiter : RateDict
  table : List CacheEntry
  backend_calls : Nat

/-- Is the resolved context name the string "imagecsv"
(`context_name == "imagecsv"`)? -/
def isImagecsv : PyVal → Bool
  | .str s => s == "imagecsv"
  | _ => false

/-- The success dictionary of the chatgpt plugin (lines 132-144). -/
def gpt_success_result (context_name : PyVal) (resp : ChatCompletion) : PyVal :=
  .dict [("response", .str resp.content),
         ("model", .str "gpt-4o-mini"),
         ("usage", .dict [("prompt_tokens", .int resp.prompt_tokens),
                          ("completion_tokens", .int resp.completion_tokens),
                          ("total_tokens", .int resp.total_tokens)]),
         ("from_cache", .bool false),
         ("context_used", context_name)]

/-- Backend invocation and write-through of the chatgpt plugin (lines
126-153): one API call; on success the result is cached unless the context
is "imagecsv". -/
def gpt_invoke (cache_enabled : Bool) (backend : Except String ChatCompletion)
    (tbl : List CacheEntry) (request_data : PyVal) (user_id : String)
    (now : ℤ) (cache_key : String) (context_name : PyVal) :
    PyVal × List CacheEntry × Nat :=
  match backend with
  | .error e => (errResult e "api_error", tbl, 1)
  | .ok resp =>
      let result := gpt_success_result context_name resp
      let tbl2 :=
        if isImagecsv context_name then tbl
        else set_text_cache cache_enabled tbl cache_key request_data result user_id now
      (result, tbl2, 1)

/-- Model of `self.contexts.get(context_name, self.contexts.get("text", ""))`
(line 86).  The context file maps names to strings; an unhashable context
value (a list or a dict) raises TypeError, any other non-matching value
falls back to the "text" entry or the empty string. -/
def ctxLookup (contexts : List (String × String)) (name : PyVal) :
    Except String String :=
  let fallback := ((contexts.find? (fun p => p.1 == "text")).map (fun p => p.2)).getD ""
  match name with
  | .str s => .ok (((contexts.find? (fun p => p.1 == s)).map (fun p => p.2)).getD fallback)
  | .list _ => .error ("unhashable type: " ++ tick ++ "list" ++ tick)
  | .dict _ => .error ("unhashable type: " ++ tick ++ "dict" ++ tick)
  | _ => .ok fallback

/-- The type name `str.replace` prints in its TypeError (None prints as
"None", not "NoneType"). -/
def pyReplaceTypeName : PyVal → String
  | .none => "None"
  | v => pyTypeName v

/-- Message assembly of the chatgpt plugin between the cache probe and the
validation branches (lines 85-92): the context lookup, then
`context_text.replace("from_lang", from_lang).replace("to_lang", to_lang)`.
Both steps run before any validation, and each raises TypeError on inputs
Python rejects: an unhashable context value, or a non-string from_lang or
to_lang (both Optional[str] on the HTTP surface, so null is reachable). -/
def gpt_prepare_context (contexts : List (String × String)) (request_data : PyVal) :
    Except String String :=
  match ctxLookup contexts (pyGetD request_data "context" (.str "text")) with
  | .error e => .error e
  | .ok context_text =>
    match pyGetD request_data "from_lang" (.str "English") with
    | .str from_lang =>
      match pyGetD request_data "to_lang" (.str "Persian") with
      | .str to_lang =>
          .ok (pyStrReplace (pyStrReplace context_text "from_lang" from_lang)
                "to_lang" to_lang)
      | v => .error ("replace() argument 2 must be str, not " ++ pyReplaceTypeName v)
    | v => .error ("replace() argument 2 must be str, not " ++ pyReplaceTypeName v)

/-- Assembly and validation stage of the chatgpt plugin (lines 85-124): the
context text is looked up and its placeholders substituted first (a
TypeError there surfaces as api_error with zero backend calls); then the
"imagecsv" context requires an `image_data` field, every other context a
truthy `prompt`. -/
def gpt_validate_and_call (contexts : List (String × String)) (cache_enabled : Bool)
    (backend : Except String ChatCompletion) (tbl : List CacheEntry)
    (request_data : PyVal) (user_id : String) (now : ℤ) (cache_key : String) :
    PyVal × List CacheEntry × Nat :=
  let context_name := pyGetD request_data "context" (.str "text")
  match gpt_prepare_context contexts request_data with
  | .error e => (errResult e "api_error", tbl, 0)
  | .ok _context_text =>
    if isImagecsv context_name then
      if (pyGet request_data "image_data").isSome then
        gpt_invoke cache_enabled backend tbl request_data user_id now cache_key context_name
      else
        (errResult "Image data required for imagecsv context" "missing_image", tbl, 0)
    else
      if !pyTruthy (pyGetD request_data "prompt" (.str "")) then
        (errResult "Prompt is required" "missing_prompt", tbl, 0)
      else
        gpt_invoke cache_enabled backend tbl request_data user_id now cache_key context_name

/-- ChatGPTPlugin.process_request: rate limit, fingerprint, cache probe
(skipped under force_refresh), hit tagging, message assembly, validation,
backend call and write-through; exceptions before the API call
(non-serializable request, non-dict cached value, TypeError in the message
assembly) fall into the blanket `except` and surface as the generic
"api_error" result.  `contexts` is the instance state loaded from the
context file at startup. -/
def chatgpt_process (contexts : List (String × String)) (cache_enabled : Bool)
    (limit : Nat) (backend : Except String ChatCompletion) (rl : RateDict)
    (tbl : List CacheEntry) (request_data : PyVal) (user_id : String)
    (force_refresh : Bool) (now : ℤ) : GptOut :=
  match check_rate_limit limit rl user_id now with
  | (false, rl1) => ⟨errResult "Rate limit exceeded" "rate_limit", rl1, tbl, 0⟩
  | (true, rl1) =>
    match generate_cache_key request_data user_id with
    | .error e => ⟨errResult e "api_error", rl1, tbl, 0⟩
    | .ok cache_key =>
      match (if force_refresh then (Option.none, tbl)
             else get_text_cache cache_enabled tbl cache_key now) with
      | (some cached, tbl1) =>
        match pySetKey cached "from_cache" (.bool true) with
        | .ok tagged => ⟨tagged, rl1, tbl1, 0⟩
        | .error e => ⟨errResult e "api_error", rl1, tbl1, 0⟩
      | (Option.none, tbl1) =>
        let step := gpt_validate_and_call contexts cache_enabled backend tbl1 request_data user_id now cache_key
        ⟨step.1, rl1, step.2.1, step.2.2⟩

/-! ### ChatterboxPlugin.process_request (src/plugin/plugin_chatterbox.py 80-229)

The TTS provider is an oracle of two `HttpOutcome`s: the `/generate` POST
and the `/audio/{id}` GET.  The outbound JSON payload is assembled by
`tts_build_payload` before the POST, as in the source; its exaggeration
clamp raises TypeError on non-numeric input, which the blanket handler
turns into api_error with no HTTP request issued.  `backend_calls` counts
the HTTP requests issued. -/

/-- The supported language table of the plugin (code, name). -/
def supported_languages : List (String × String) :=
  [("ar", "Arabic"), ("da", "Danish"), ("de", "German"), ("el", "Greek"),
   ("en", "English"), ("es", "Spanish"), ("fi", "Finnish"), ("fr", "French"),
   ("he", "Hebrew"), ("hi", "Hindi"), ("it", "Italian"), ("ja", "Japanese"),
   ("ko", "Korean"), ("ms", "Malay"), ("nl", "Dutch"), ("no", "Norwegian"),
   ("pl", "Polish"), ("pt", "Portuguese"), ("ru", "Russian"), ("sv", "Swedish"),
   ("sw", "Swahili"), ("tr", "Turkish"), ("zh", "Chinese")]

/-- The emotion presets of the plugin. -/
def emotion_presets : List String :=
  ["neutral", "happy", "sad", "angry", "excited", "calm", "dramatic"]

/-- ChatterboxPlugin.validate_language (lines 76-78):
`any(lang["code"] == language_code for lang in self.supported_languages)`. -/
def validate_language (language_code : PyVal) : Bool :=
  supported_languages.any fun l =>
    match language_code with
    | .str s => l.1 == s
    | _ => false

/-- ChatterboxPlugin.validate_emotion (lines 80-82): `emotion in
self.emotion_presets`. -/
def validate_emotion (emotion : PyVal) : Bool :=
  emotion_presets.any fun p =>
    match emotion with
    | .str s => p == s
    | _ => false

/-- Observable outcome of one chatterbox (or flux) process_request call. -/
structure BlobOut where
  result : PyVal
  rate_limiter : RateDict
  bucket : List BlobEntry
  backend_calls : Nat

/-- The cache-hit result of the chatterbox plugin (lines 102-113). -/
def tts_cached_result (request_data : PyVal) (audio : List Nat) : PyVal :=
  .dict [("audio", .str ("data:audio/wav;base64," ++ base64encode audio)),
         ("model", .str "chatterbox-tts"),
         ("from_cache", .bool true),
         ("text", pyGetD request_data "text" (.str "")),
         ("language", pyGetD request_data "language" (.str "en")),
         ("format", .str "wav")]

/-- The clamp `max(0.0, min(2.0, x))` of the exaggeration parameter (line
147).  CPython semantics: a strictly in-range int (or True) passes through
unchanged, ints at or beyond a bound come back as the float bound (min and
max return their float argument on ties), False comes back as 0.0, and any
non-numeric value raises TypeError from the `<` comparison. -/
def clampExaggeration : PyVal → Except String PyVal
  | .int n => .ok (if 2 ≤ n then .float 2 else if n ≤ 0 then .float 0 else .int n)
  | .float q => .ok (.float (max 0 (min 2 q)))
  | .bool true => .ok (.bool true)
  | .bool false => .ok (.float 0)
  | v => .error (tick ++ "<" ++ tick ++ " not supported between instances of "
      ++ tick ++ pyTypeName v ++ tick ++ " and " ++ tick ++ "float" ++ tick)

/-- The parameters echo of the chatterbox success result (lines 203-207):
`payload["speed"]`, `payload["exaggeration"]`, and the seed from the
provider body when present, else `payload["seed"]` (the keys always exist
in the assembled payload, so the defaults here are unreachable). -/
def tts_parameters (payload body : PyVal) : PyVal :=
  .dict [("speed", pyGetD payload "speed" .none),
         ("exaggeration", pyGetD payload "exaggeration" .none),
         ("seed", pyGetD body "seed" (pyGetD payload "seed" (.int (-1))))]

/-- The success dictionary of the chatterbox plugin (lines 195-212),
including the voice_cloned flag when the assembled payload carried
audio_prompt_path (`if "audio_prompt_path" in payload`). -/
def tts_success_result (payload : PyVal) (text language emotion : PyVal)
    (body : PyVal) (audio : List Nat) : PyVal :=
  let base : List (String × PyVal) :=
    [("audio", .str ("data:audio/wav;base64," ++ base64encode audio)),
     ("model", .str "chatterbox-tts"),
     ("from_cache", .bool false),
     ("text", text),
     ("language", language),
     ("emotion", emotion),
     ("format", .str "wav"),
     ("generation_time", pyGetD body "generation_time" .none),
     ("parameters", tts_parameters payload body)]
  if (pyGet payload "audio_prompt_path").isSome then
    .dict (base ++ [("voice_cloned", .bool true)])
  else .dict base

/-- The provider payload of the chatterbox plugin, assembled before the POST
(lines 142-152): text, language, emotion, speed, the exaggeration clamp
(whose TypeError on non-numeric input aborts the request here, before any
HTTP call), the seed, and the optional audio_prompt_path passthrough. -/
def tts_build_payload (request_data : PyVal) (text language emotion : PyVal) :
    Except String PyVal :=
  match clampExaggeration (pyGetD request_data "exaggeration" (.float 1)) with
  | .error e => .error e
  | .ok exaggeration =>
    let base : List (String × PyVal) :=
      [("text", text), ("language", language), ("emotion", emotion),
       ("speed", pyGetD request_data "speed" (.float 1)),
       ("exaggeration", exaggeration),
       ("seed", pyGetD request_data "seed" (.int (-1)))]
    .ok (.dict (match pyGet request_data "audio_prompt_path" with
      | some v => base ++ [("audio_prompt_path", v)]
      | Option.none => base))

/-- Backend round trip of the chatterbox plugin (lines 160-221): POST
`/generate`, check status and `audio_id`, GET `/audio/{id}`, cache the
bytes, build the result.  Timeouts anywhere in the `async with` block reach
the `httpx.TimeoutException` handler. -/
def tts_invoke (cache_enabled : Bool) (post getArtifact : HttpOutcome)
    (bucket : List BlobEntry) (payload : PyVal) (cache_key : String)
    (text language emotion : PyVal) : PyVal × List BlobEntry × Nat :=
  match post with
  | .timeout => (errResult "TTS generation timeout" "timeout", bucket, 1)
  | .exn e => (errResult e "api_error", bucket, 1)
  | .resp status body _ =>
    if status ≠ 200 then
      (errResult ("Chatterbox API error: " ++ toString status) "api_error", bucket, 1)
    else if (pyGet body "audio_id").isNone then
      (errResult "TTS generation failed" "generation_failed", bucket, 1)
    else
      match getArtifact with
      | .timeout => (errResult "TTS generation timeout" "timeout", bucket, 2)
      | .exn e => (errResult e "api_error", bucket, 2)
      | .resp gstatus _ content =>
        if gstatus ≠ 200 then
          (errResult "Failed to retrieve generated audio" "audio_retrieval_failed", bucket, 2)
        else
          let bucket2 := set_file_cache cache_enabled bucket cache_key content "audio/wav"
          (tts_success_result payload text language emotion body content, bucket2, 2)

/-- ChatterboxPlugin.process_request: rate limit (threshold 10),
fingerprint, blob cache probe (skipped under force_refresh), text /
language / emotion validation, payload assembly (whose TypeError surfaces as
api_error with zero provider calls), provider round trip and
write-through. -/
def chatterbox_process (cache_enabled : Bool) (post getArtifact : HttpOutcome)
    (rl : RateDict) (bucket : List BlobEntry) (request_data : PyVal)
    (user_id : String) (force_refresh : Bool) (now : ℤ) : BlobOut :=
  match check_rate_limit 10 rl user_id now with
  | (false, rl1) =>
      ⟨errResult "Rate limit exceeded for TTS generation" "rate_limit", rl1, bucket, 0⟩
  | (true, rl1) =>
    match generate_cache_key request_data user_id with
    | .error e => ⟨errResult e "api_error", rl1, bucket, 0⟩
    | .ok cache_key =>
      match (if force_refresh then Option.none
             else get_file_cache cache_enabled bucket cache_key) with
      | some cached => ⟨tts_cached_result request_data cached, rl1, bucket, 0⟩
      | Option.none =>
        let text := pyGet request_data "text"
        if !optPyTruthy text then
          ⟨errResult "Text is required for TTS generation" "missing_text", rl1, bucket, 0⟩
        else
          let language := pyGetD request_data "language" (.str "en")
          if !validate_language language then
            ⟨.dict [("error", .str ("Unsupported language: " ++ pyStr language)),
                    ("error_type", .str "invalid_language"),
                    ("from_cache", .bool false),
                    ("supported_languages", .list (supported_languages.map (fun l => .str l.1)))],
             rl1, bucket, 0⟩
          else
            let emotion := pyGetD request_data "emotion" (.str "neutral")
            if !validate_emotion emotion then
              ⟨.dict [("error", .str ("Unsupported emotion: " ++ pyStr emotion)),
                      ("error_type", .str "invalid_emotion"),
                      ("from_cache", .bool false),
                      ("supported_emotions", .list (emotion_presets.map (fun p => .str p)))],
               rl1, bucket, 0⟩
            else
              match tts_build_payload request_data (text.getD .none) language emotion with
              | .error e => ⟨errResult e "api_error", rl1, bucket, 0⟩
              | .ok payload =>
                let step := tts_invoke cache_enabled post getArtifact bucket payload
                  cache_key (text.getD .none) language emotion
                ⟨step.1, rl1, step.2.1, step.2.2⟩

/-! ### FluxPlugin.process_request (src/plugin/plugin_flux.py 44-176) -/

/-- The cache-hit result of the flux plugin (lines 63-72). -/
def flux_cached_result (request_data : PyVal) (image : List Nat) : PyVal :=
  .dict [("image", .str ("data:image/png;base64," ++ base64encode image)),
         ("model", .str "flux-1-schnell"),
         ("from_cache", .bool true),
         ("prompt", pyGetD request_data "prompt" (.str "")),
         ("format", .str "png")]

/-- The parameters echo of the flux success result (lines 147-153). -/
def flux_parameters (request_data body : PyVal) : PyVal :=
  .dict [("width", pyGetD request_data "width" (.int 1024)),
         ("height", pyGetD request_data "height" (.int 1024)),
         ("steps", pyGetD request_data "steps" (.int 4)),
         ("guidance_scale", pyGetD request_data "guidance_scale" (.float (15/2))),
         ("seed", pyGetD body "seed" (pyGetD request_data "seed" (.int (-1))))]

/-- The success dictionary of the flux plugin (lines 140-154). -/
def flux_success_result (request_data : PyVal) (prompt : PyVal) (body : PyVal)
    (image : List Nat) : PyVal :=
  .dict [("image", .str ("data:image/png;base64," ++ base64encode image)),
         ("model", .str "flux-1-schnell"),
         ("from_cache", .bool false),
         ("prompt", prompt),
         ("format", .str "png"),
         ("generation_time", pyGetD body "generation_time" .none),
         ("parameters", flux_parameters request_data body)]

/-- Backend round trip of the flux plugin (lines 93-156): POST `/generate`,
check status and `image_id`, GET `/image/{id}`, cache the bytes, build the
result. -/
def flux_invoke (cache_enabled : Bool) (post getArtifact : HttpOutcome)
    (bucket : List BlobEntry) (request_data : PyVal) (cache_key : String)
    (prompt : PyVal) : PyVal × List BlobEntry × Nat :=
  match post with
  | .timeout => (errResult "Image generation timeout" "timeout", bucket, 1)
  | .exn e => (errResult e "api_error", bucket, 1)
  | .resp status body _ =>
    if status ≠ 200 then
      (errResult ("Flux API error: " ++ toString status) "api_error", bucket, 1)
    else if (pyGet body "image_id").isNone then
      (errResult "Image generation failed" "generation_failed", bucket, 1)
    else
      match getArtifact with
      | .timeout => (errResult "Image generation timeout" "timeout", bucket, 2)
      | .exn e => (errResult e "api_error", bucket, 2)
      | .resp gstatus _ content =>
        if gstatus ≠ 200 then
          (errResult "Failed to retrieve generated image" "image_retrieval_failed", bucket, 2)
        else
          let bucket2 := set_file_cache cache_enabled bucket cache_key content "image/png"
          (flux_success_result request_data prompt body content, bucket2, 2)

/-- FluxPlugin.process_request: rate limit (threshold 5), fingerprint, blob
cache probe (skipped under force_refresh), prompt validation, provider
round trip and write-through. -/
def flux_process (cache_enabled : Bool) (post getArtifact : HttpOutcome)
    (rl : RateDict) (bucket : List BlobEntry) (request_data : PyVal)
    (user_id : String) (force_refresh : Bool) (now : ℤ) : BlobOut :=
  match check_rate_limit 5 rl user_id now with
  | (false, rl1) =>
      ⟨errResult "Rate limit exceeded for image generation" "rate_limit", rl1, bucket, 0⟩
  | (true, rl1) =>
    match generate_cache_key request_data user_id with
    | .error e => ⟨errResult e "api_error", rl1, bucket, 0⟩
    | .ok cache_key =>
      match (if force_refresh then Option.none
             else get_file_cache cache_enabled bucket cache_key) with
      | some cached => ⟨flux_cached_result request_data cached, rl1, bucket, 0⟩
      | Option.none =>
        let prompt := pyGet request_data "prompt"
        if !optPyTruthy prompt then
          ⟨errResult "Prompt is required for image generation" "missing_prompt", rl1, bucket, 0⟩
        else
          let step := flux_invoke cache_enabled post getArtifact bucket request_data
            cache_key (prompt.getD .none)
          ⟨step.1, rl1, step.2.1, step.2.2⟩
/-! ### Rate-limiter dictionary lemmas -/

theorem find?_map_replace_self (rl : RateDict) (u : String) (ts : List ℤ)
    (h : rl.any (fun p => p.1 == u) = true) :
    (rl.map (fun p => if p.1 == u then (u, ts) else p)).find? (fun p => p.1 == u)
      = some (u, ts) := by
  induction rl with
  | nil => simp at h
  | cons p rest ih =>
    by_cases hp : (p.1 == u) = true
    · simp only [List.map_cons]
      rw [if_pos hp]
      exact List.find?_cons_of_pos (p := fun (q : String × List ℤ) => q.1 == u) _ (by simp)
    · simp only [List.any_cons, hp, Bool.false_or] at h
      simp only [List.map_cons]
      rw [if_neg hp,
          List.find?_cons_of_neg (p := fun (q : String × List ℤ) => q.1 == u) _ hp]
      exact ih h

theorem find?_map_replace_other (rl : RateDict) (u u' : String) (hne : u' ≠ u)
    (ts : List ℤ) :
    (rl.map (fun p => if p.1 == u then (u, ts) else p)).find? (fun p => p.1 == u')
      = rl.find? (fun p => p.1 == u') := by
  induction rl with
  | nil => simp
  | cons p rest ih =>
    by_cases hp : (p.1 == u) = true
    · simp only [List.map_cons]
      rw [if_pos hp,
          List.find?_cons_of_neg (p := fun (q : String × List ℤ) => q.1 == u') _
            (by simp [Ne.symm hne]),
          List.find?_cons_of_neg (p := fun (q : String × List ℤ) => q.1 == u') _
            (by simp at hp ⊢; rw [hp]; exact Ne.symm hne)]
      exact ih
    · simp only [List.map_cons]
      rw [if_neg hp]
      by_cases hq : (p.1 == u') = true
      · rw [List.find?_cons_of_pos (p := fun (q : String × List ℤ) => q.1 == u') _ hq,
            List.find?_cons_of_pos (p := fun (q : String × List ℤ) => q.1 == u') _ hq]
      · rw [List.find?_cons_of_neg (p := fun (q : String × List ℤ) => q.1 == u') _ hq,
            List.find?_cons_of_neg (p := fun (q : String × List ℤ) => q.1 == u') _ hq]
        exact ih

theorem find?_append_single_self (rl : RateDict) (u : String) (ts : List ℤ)
    (h : rl.any (fun p => p.1 == u) = false) :
    (rl ++ [(u, ts)]).find? (fun p => p.1 == u) = some (u, ts) := by
  induction rl with
  | nil => simp
  | cons p rest ih =>
    simp only [List.any_cons, Bool.or_eq_false_iff] at h
    simp only [List.cons_append]
    rw [List.find?_cons_of_neg (p := fun (q : String × List ℤ) => q.1 == u) _
          (by simp [h.1])]
    exact ih h.2

theorem find?_append_single_other (rl : RateDict) (u u' : String) (hne : u' ≠ u)
    (ts : List ℤ) :
    (rl ++ [(u, ts)]).find? (fun p => p.1 == u') = rl.find? (fun p => p.1 == u') := by
  induction rl with
  | nil => simp [Ne.symm hne]
  | cons p rest ih =>
    by_cases hq : (p.1 == u') = true
    · simp only [List.cons_append]
      rw [List.find?_cons_of_pos (p := fun (q : String × List ℤ) => q.1 == u') _ hq,
          List.find?_cons_of_pos (p := fun (q : String × List ℤ) => q.1 == u') _ hq]
    · simp only [List.cons_append]
      rw [List.find?_cons_of_neg (p := fun (q : String × List ℤ) => q.1 == u') _ hq,
          List.find?_cons_of_neg (p := fun (q : String × List ℤ) => q.1 == u') _ hq]
      exact ih

theorem rlWindow_rlStore_self (rl : RateDict) (u : String) (ts : List ℤ) :
    rlWindow (rlStore rl u ts) u = ts := by
  unfold rlStore rlWindow
  by_cases h : rl.any (fun p => p.1 == u) = true
  · rw [if_pos h, find?_map_replace_self rl u ts h]
  · rw [if_neg h, find?_append_single_self rl u ts
        (by revert h; cases rl.any (fun p => p.1 == u) <;> simp)]

theorem rlWindow_rlStore_other (rl : RateDict) (u u' : String) (hne : u' ≠ u)
    (ts : List ℤ) : rlWindow (rlStore rl u ts) u' = rlWindow rl u' := by
  unfold rlStore rlWindow
  by_cases h : rl.any (fun p => p.1 == u) = true
  · rw [if_pos h, find?_map_replace_other rl u u' hne ts]
  · rw [if_neg h, find?_append_single_other rl u u' hne ts]

/-- Admission characterization of one check. -/
theorem check_rate_limit_spec (limit : Nat) (rl : RateDict) (u : String) (now : ℤ) :
    ((check_rate_limit limit rl u now).1 = true
        ↔ (rl_prune now (rlWindow rl u)).length < limit) ∧
    rlWindow (check_rate_limit limit rl u now).2 u =
      (if (rl_prune now (rlWindow rl u)).length < limit
       then rl_prune now (rlWindow rl u) ++ [now]
       else rl_prune now (rlWindow rl u)) ∧
    (∀ u', u' ≠ u → rlWindow (check_rate_limit limit rl u now).2 u' = rlWindow rl u') := by
  unfold check_rate_limit
  by_cases h : limit ≤ (rl_prune now (rlWindow rl u)).length
  · rw [if_pos h]
    refine ⟨by simpa using Nat.not_lt.mpr h, ?_, ?_⟩
    · rw [if_neg (Nat.not_lt.mpr h), rlWindow_rlStore_self]
    · intro u' hu'; exact rlWindow_rlStore_other rl u u' hu' _
  · rw [if_neg h]
    have hlt := Nat.lt_of_not_le h
    refine ⟨by simpa using hlt, ?_, ?_⟩
    · rw [if_pos hlt, rlWindow_rlStore_self]
    · intro u' hu'; exact rlWindow_rlStore_other rl u u' hu' _

/-- A pruned window is unchanged when every recorded time is within 60
seconds of the check time. -/
theorem rl_prune_eq_self (now : ℤ) (ts : List ℤ) (h : ∀ x ∈ ts, now - 60 < x) :
    rl_prune now ts = ts :=
  List.filter_eq_self.mpr (fun x hx => by simpa using h x hx)

/-- A pruned window empties when every recorded time is at least 60 seconds
old. -/
theorem rl_prune_eq_nil (now : ℤ) (ts : List ℤ) (h : ∀ x ∈ ts, x + 60 ≤ now) :
    rl_prune now ts = [] := by
  unfold rl_prune
  rw [List.filter_eq_nil_iff]
  intro x hx
  simpa using by linarith [h x hx]

/-- Runs that stay below the threshold inside one 60-second span admit every
call and record every call time. -/
theorem rl_run_admits_below_threshold (limit : Nat) (u : String) :
    ∀ (ts : List ℤ) (rl : RateDict) (pre : List ℤ),
      rlWindow rl u = pre →
      List.Sorted (· ≤ ·) (pre ++ ts) →
      (∀ x ∈ pre ++ ts, ∀ y ∈ pre ++ ts, y - x < 60) →
      (pre ++ ts).length ≤ limit →
      (rl_run limit rl u ts).2 = List.replicate ts.length true ∧
      rlWindow (rl_run limit rl u ts).1 u = pre ++ ts := by
  intro ts
  induction ts with
  | nil => intro rl pre hw _ _ _; simpa [rl_run] using hw
  | cons t rest ih =>
    intro rl pre hw hsorted hspan hlen
    have hmem_t : t ∈ pre ++ t :: rest := by simp
    have hprune : rl_prune t pre = pre := by
      refine rl_prune_eq_self t pre (fun x hx => ?_)
      have hx' : x ∈ pre ++ t :: rest := List.mem_append_left _ hx
      have := hspan x hx' t hmem_t
      linarith
    have hlt : (rl_prune t (rlWindow rl u)).length < limit := by
      rw [hw, hprune]
      have : pre.length + (rest.length + 1) ≤ limit := by
        simpa [List.length_append] using hlen
      omega
    have hspec := check_rate_limit_spec limit rl u t
    have hallow : (check_rate_limit limit rl u t).1 = true := hspec.1.mpr hlt
    have hwin1 : rlWindow (check_rate_limit limit rl u t).2 u = pre ++ [t] := by
      rw [hspec.2.1, if_pos hlt, hw, hprune]
    have hassoc : (pre ++ [t]) ++ rest = pre ++ t :: rest := by simp
    have ihres := ih (check_rate_limit limit rl u t).2 (pre ++ [t]) hwin1
      (by rw [hassoc]; exact hsorted)
      (by rw [hassoc]; exact hspan)
      (by rw [hassoc]; exact hlen)
    refine ⟨?_, ?_⟩
    · simp only [rl_run, hallow, ihres.1]
      simp [List.replicate_succ]
    · simpa only [rl_run, hassoc] using ihres.2

/-- C4: each admission check of a frozen (adapter, user) key first prunes the
recorded timestamps to the trailing 60-second window, grants exactly when the
surviving count is below the threshold, and records the call time only when
admitted; consequently, starting from a fresh key, N calls within a
60-second span are all admitted, an (N+1)-th call inside the span is
rejected, and a later call past the window of every recorded time is
admitted again. -/
theorem rate_limiter_sliding_window (limit : Nat) (rl : RateDict) (u : String) (now : ℤ) :
    (((check_rate_limit limit rl u now).1 = true
        ↔ (rl_prune now (rlWindow rl u)).length < limit) ∧
     rlWindow (check_rate_limit limit rl u now).2 u =
       (if (rl_prune now (rlWindow rl u)).length < limit
        then rl_prune now (rlWindow rl u) ++ [now]
        else rl_prune now (rlWindow rl u))) ∧
    (∀ (ts : List ℤ) (t' t'' : ℤ),
      rlWindow rl u = [] →
      ts.length = limit →
      List.Sorted (· ≤ ·) ts →
      (∀ x ∈ ts, ∀ y ∈ ts, y - x < 60) →
      (∀ x ∈ ts, t' - 60 < x) →
      (∀ x ∈ ts, x + 60 ≤ t'') →
      0 < limit →
      (rl_run limit rl u ts).2 = List.replicate limit true ∧
      (check_rate_limit limit (rl_run limit rl u ts).1 u t').1 = false ∧
      (check_rate_limit limit
        (check_rate_limit limit (rl_run limit rl u ts).1 u t').2 u t'').1 = true) := by
  refine ⟨⟨(check_rate_limit_spec limit rl u now).1, (check_rate_limit_spec limit rl u now).2.1⟩, ?_⟩
  intro ts t' t'' hw hlen hsorted hspan ht' ht'' hpos
  have hrun := rl_run_admits_below_threshold limit u ts rl [] hw
    (by simpa using hsorted) (by simpa using hspan) (by simp [hlen])
  have hwin : rlWindow (rl_run limit rl u ts).1 u = ts := by simpa using hrun.2
  have hprune' : rl_prune t' ts = ts := rl_prune_eq_self t' ts ht'
  have hreject : (check_rate_limit limit (rl_run limit rl u ts).1 u t').1 = false := by
    have hspec := check_rate_limit_spec limit (rl_run limit rl u ts).1 u t'
    have : ¬ ((check_rate_limit limit (rl_run limit rl u ts).1 u t').1 = true) := by
      intro htrue
      have := hspec.1.mp htrue
      rw [hwin, hprune', hlen] at this
      omega
    revert this
    cases (check_rate_limit limit (rl_run limit rl u ts).1 u t').1 <;> simp
  refine ⟨by rw [hrun.1, hlen], hreject, ?_⟩
  have hspec' := check_rate_limit_spec limit (rl_run limit rl u ts).1 u t'
  have hwin2 : rlWindow (check_rate_limit limit (rl_run limit rl u ts).1 u t').2 u = ts := by
    rw [hspec'.2.1, hwin, hprune', hlen, if_neg (by omega)]
  have hspec'' := check_rate_limit_spec limit
    (check_rate_limit limit (rl_run limit rl u ts).1 u t').2 u t''
  refine hspec''.1.mpr ?_
  rw [hwin2, rl_prune_eq_nil t'' ts ht'']
  simpa using hpos

/-- C4 witness: threshold 2 with calls at 0 and 30 admitted, a third call at
59 rejected, and a call at 100 admitted again. -/
theorem rate_limiter_sliding_window_witness :
    (rl_run 2 [] "u7" [0, 30]).2 = List.replicate 2 true ∧
    (check_rate_limit 2 (rl_run 2 [] "u7" [0, 30]).1 "u7" 59).1 = false ∧
    (check_rate_limit 2
      (check_rate_limit 2 (rl_run 2 [] "u7" [0, 30]).1 "u7" 59).2 "u7" 100).1 = true := by
  refine (rate_limiter_sliding_window 2 [] "u7" 0).2 [0, 30] 59 100 rfl rfl ?_ ?_ ?_ ?_ ?_
  · simp [List.sorted_cons]
  · intro x hx y hy
    simp at hx hy
    rcases hx with rfl | rfl <;> rcases hy with rfl | rfl <;> norm_num
  · intro x hx
    simp at hx
    rcases hx with rfl | rfl <;> norm_num
  · intro x hx
    simp at hx
    rcases hx with rfl | rfl <;> norm_num
  · norm_num

/-- C1: on the code as written, putting twice under one fingerprint leaves
exactly one entry, but the conflict branch of set_cache binds `$2` (the
request payload) into the response column, so the surviving response payload
is the second request snapshot rather than the second response payload; at
the failing input below the single entry holds `{"a": 2}`, not `{"x": 2}`. -/
theorem set_cache_conflict_stores_request_payload :
    set_cache
      (set_cache [] "k" (.dict [("a", .int 1)]) (.dict [("x", .int 1)]) "u1" 0)
      "k" (.dict [("a", .int 2)]) (.dict [("x", .int 2)]) "u1" 1
      = [{ cache_key := "k", request_data := .dict [("a", .int 1)],
           response_data := .dict [("a", .int 2)], user_id := "u1",
           created_at := 0, accessed_at := 1 }] ∧
    (PyVal.dict [("a", .int 2)]) ≠ (PyVal.dict [("x", .int 2)]) :=
  ⟨rfl, by simp⟩

/-- C6: every store-level exception raised during a cache get or put is
caught by the cache manager: a failing get degrades to a miss (`.ok none`),
a failing put to a no-op (`.ok ()`), and no outcome of any store action ever
propagates as an exception. -/
theorem cache_store_failures_fail_soft (cache_enabled : Bool) (e : String) :
    cm_get_text_cache cache_enabled (.error e) = .ok Option.none ∧
    cm_set_text_cache cache_enabled (.error e) = .ok () ∧
    cm_get_file_cache cache_enabled (.error e) = .ok Option.none ∧
    cm_set_file_cache cache_enabled (.error e) = .ok () ∧
    (∀ s, ∃ r, cm_get_text_cache cache_enabled s = .ok r) ∧
    (∀ s, cm_set_text_cache cache_enabled s = .ok ()) ∧
    (∀ s, ∃ r, cm_get_file_cache cache_enabled s = .ok r) ∧
    (∀ s, cm_set_file_cache cache_enabled s = .ok ()) := by
  refine ⟨by cases cache_enabled <;> rfl, by cases cache_enabled <;> rfl,
          by cases cache_enabled <;> rfl, by cases cache_enabled <;> rfl,
          ?_, ?_, ?_, ?_⟩
  · intro s
    cases cache_enabled
    · exact ⟨Option.none, rfl⟩
    · rcases s with e' | _ | v
      · exact ⟨Option.none, rfl⟩
      · exact ⟨Option.none, rfl⟩
      · by_cases hv : pyTruthy v = true
        · exact ⟨some v, by simp [cm_get_text_cache, hv]⟩
        · exact ⟨Option.none, by simp [cm_get_text_cache, hv]⟩
  · intro s
    cases cache_enabled <;> rcases s with e' | u <;> rfl
  · intro s
    cases cache_enabled
    · exact ⟨Option.none, rfl⟩
    · rcases s with e' | _ | v
      · exact ⟨Option.none, rfl⟩
      · exact ⟨Option.none, rfl⟩
      · by_cases hv : v.isEmpty = true
        · exact ⟨Option.none, by simp [cm_get_file_cache, hv]⟩
        · exact ⟨some v, by simp [cm_get_file_cache, hv]⟩
  · intro s
    cases cache_enabled <;> rcases s with e' | u <;> rfl

/-- Pointwise description of the table a structured-cache read leaves
behind: each row keeps every column except that a row whose key matches has
its accessed_at column set to the read time. -/
theorem get_cache_snd (tbl : List CacheEntry) (k : String) (now : ℤ) :
    (get_cache tbl k now).2 =
      tbl.map (fun e => if e.cache_key == k then { e with accessed_at := now } else e) := by
  unfold get_cache
  cases hf : List.find? (fun e => e.cache_key == k) tbl <;> simp [hf]

/-- A `Forall₂` between a list and its image under a map. -/
theorem forall₂_map_of_pointwise {α : Type} (f : α → α) (P : α → α → Prop)
    (h : ∀ a, P a (f a)) (l : List α) : List.Forall₂ P l (l.map f) := by
  induction l with
  | nil => simp
  | cons a rest ih => exact List.Forall₂.cons (h a) ih

/-- C8: a structured-cache get that hits refreshes only the matching row
last-accessed column, leaving its key, payloads, owner and creation time
unchanged and every other row untouched; a get that misses returns absent
and leaves the table exactly as it was. -/
theorem get_cache_hit_bumps_accessed_only (tbl : List CacheEntry) (k : String) (now : ℤ) :
    ((∀ e ∈ tbl, e.cache_key ≠ k) → get_cache tbl k now = (Option.none, tbl)) ∧
    List.Forall₂ (fun e e' =>
        e'.cache_key = e.cache_key ∧ e'.request_data = e.request_data ∧
        e'.response_data = e.response_data ∧ e'.user_id = e.user_id ∧
        e'.created_at = e.created_at ∧
        (e.cache_key = k → e'.accessed_at = now) ∧
        (e.cache_key ≠ k → e' = e))
      tbl (get_cache tbl k now).2 := by
  constructor
  · intro h
    have hfind : tbl.find? (fun e => e.cache_key == k) = Option.none :=
      List.find?_eq_none.mpr (fun e he => by simp [h e he])
    have hmap : tbl.map (fun e => if e.cache_key == k then { e with accessed_at := now } else e)
        = tbl := by
      conv_rhs => rw [← List.map_id tbl]
      refine List.map_congr_left (fun e he => ?_)
      rw [if_neg (by simp [h e he])]
      rfl
    unfold get_cache
    rw [hfind, hmap]
    rfl
  · rw [get_cache_snd]
    refine forall₂_map_of_pointwise _ _ (fun e => ?_) tbl
    by_cases hk : e.cache_key = k
    · rw [if_pos (by simp [hk])]
      exact ⟨rfl, rfl, rfl, rfl, rfl, fun _ => rfl, fun h => absurd hk h⟩
    · rw [if_neg (by simp [hk])]
      exact ⟨rfl, rfl, rfl, rfl, rfl, fun h => absurd h hk, fun _ => rfl⟩

/-- C8 witness: a miss on key "absent" returns nothing and keeps the table;
the per-row description holds on a one-row table read at its own key. -/
theorem get_cache_hit_bumps_accessed_only_witness :
    get_cache [{ cache_key := "k1", request_data := .none, response_data := .int 1,
                 user_id := "u1", created_at := 0, accessed_at := 0 }] "absent" 5
      = (Option.none,
         [{ cache_key := "k1", request_data := .none, response_data := .int 1,
            user_id := "u1", created_at := 0, accessed_at := 0 }]) ∧
    List.Forall₂ (fun e e' =>
        e'.cache_key = e.cache_key ∧ e'.request_data = e.request_data ∧
        e'.response_data = e.response_data ∧ e'.user_id = e.user_id ∧
        e'.created_at = e.created_at ∧
        (e.cache_key = "k1" → e'.accessed_at = 5) ∧
        (e.cache_key ≠ "k1" → e' = e))
      [{ cache_key := "k1", request_data := .none, response_data := .int 1,
         user_id := "u1", created_at := 0, accessed_at := 0 }]
      (get_cache [{ cache_key := "k1", request_data := .none, response_data := .int 1,
                    user_id := "u1", created_at := 0, accessed_at := 0 }] "k1" 5).2 :=
  ⟨(get_cache_hit_bumps_accessed_only _ "absent" 5).1
      (by intro e he; simp at he; subst he; simp),
   (get_cache_hit_bumps_accessed_only _ "k1" 5).2⟩

/-- C7: clearing the cache of an adapter for one user removes exactly the rows of that user:
structured rows (every other row of the adapter survives) and touches no
blob bucket; clearing with no user empties the structured table of the adapter
and its blob bucket; partitions of other adapters are untouched either way. -/
theorem clear_plugin_cache_scoped (st : Stores) (a u : String) (hu : u ≠ "") :
    (∀ e, e ∈ (cm_clear_plugin_cache st a (some u)).text a ↔
        e ∈ st.text a ∧ e.user_id ≠ u) ∧
    (∀ b, (cm_clear_plugin_cache st a (some u)).blob b = st.blob b) ∧
    (∀ b, b ≠ a → (cm_clear_plugin_cache st a (some u)).text b = st.text b) ∧
    (cm_clear_plugin_cache st a Option.none).text a = [] ∧
    (cm_clear_plugin_cache st a Option.none).blob a = [] ∧
    (∀ b, b ≠ a →
      (cm_clear_plugin_cache st a Option.none).text b = st.text b ∧
      (cm_clear_plugin_cache st a Option.none).blob b = st.blob b) := by
  have huE : u.isEmpty = false := by
    cases hE : u.isEmpty
    · rfl
    · exact absurd ((String.isEmpty_iff u).mp hE) hu
  refine ⟨?_, ?_, ?_, ?_, ?_, ?_⟩
  · intro e
    simp [cm_clear_plugin_cache, db_clear_plugin_cache, huE, List.mem_filter]
  · intro b
    simp [cm_clear_plugin_cache, huE]
  · intro b hb
    simp [cm_clear_plugin_cache, db_clear_plugin_cache, huE, hb]
  · simp [cm_clear_plugin_cache, db_clear_plugin_cache,
      show ("".isEmpty : Bool) = true from rfl]
  · simp [cm_clear_plugin_cache, minio_clear_plugin_cache,
      show ("".isEmpty : Bool) = true from rfl]
  · intro b hb
    constructor <;> simp [cm_clear_plugin_cache, db_clear_plugin_cache,
      minio_clear_plugin_cache, hb, show ("".isEmpty : Bool) = true from rfl]

/-- C7 witness: a two-user table under adapter "chatgpt" cleared for "u1"
keeps exactly the "u2" row and the blob bucket; the no-user clear empties
both. -/
theorem clear_plugin_cache_scoped_witness :
    (∀ e, e ∈ (cm_clear_plugin_cache
        { text := fun _ => [{ cache_key := "k1", request_data := .none,
                              response_data := .int 1, user_id := "u1",
                              created_at := 0, accessed_at := 0 },
                            { cache_key := "k2", request_data := .none,
                              response_data := .int 2, user_id := "u2",
                              created_at := 0, accessed_at := 0 }],
          blob := fun _ => [{ object_name := "k1", data := [1], content_type := "audio/wav" }] }
        "chatgpt" (some "u1")).text "chatgpt" ↔
      e ∈ [{ cache_key := "k1", request_data := PyVal.none,
             response_data := PyVal.int 1, user_id := "u1",
             created_at := (0 : ℤ), accessed_at := (0 : ℤ) },
           { cache_key := "k2", request_data := PyVal.none,
             response_data := PyVal.int 2, user_id := "u2",
             created_at := (0 : ℤ), accessed_at := (0 : ℤ) }] ∧ e.user_id ≠ "u1") ∧
    (cm_clear_plugin_cache
        { text := fun _ => [{ cache_key := "k1", request_data := .none,
                              response_data := .int 1, user_id := "u1",
                              created_at := 0, accessed_at := 0 }],
          blob := fun _ => [{ object_name := "k1", data := [1], content_type := "audio/wav" }] }
        "chatgpt" (some "u1")).blob "chatgpt"
      = [{ object_name := "k1", data := [1], content_type := "audio/wav" }] ∧
    (cm_clear_plugin_cache
        { text := fun _ => [{ cache_key := "k1", request_data := .none,
                              response_data := .int 1, user_id := "u1",
                              created_at := 0, accessed_at := 0 }],
          blob := fun _ => [{ object_name := "k1", data := [1], content_type := "audio/wav" }] }
        "chatgpt" Option.none).text "chatgpt" = [] := by
  refine ⟨(clear_plugin_cache_scoped _ "chatgpt" "u1" (by decide)).1,
          (clear_plugin_cache_scoped _ "chatgpt" "u1" (by decide)).2.1 "chatgpt",
          (clear_plugin_cache_scoped _ "chatgpt" "u1" (by decide)).2.2.2.1⟩

set_option maxRecDepth 100000 in
/-- C3: the fingerprint is deterministic and order-independent: any two
request mappings equal after key-sort normalization at every nesting level
fingerprint identically under the same user; and at representative inputs,
changing a single parameter value or the user id changes the fingerprint. -/
theorem fingerprint_key_sort_deterministic :
    (∀ (p p' : PyVal) (u : String), pyNormalize p = pyNormalize p' →
      generate_cache_key p u = generate_cache_key p' u) ∧
    generate_cache_key (.dict [("context", .str "text"), ("prompt", .str "hello")]) "u1"
      ≠ generate_cache_key (.dict [("context", .str "text"), ("prompt", .str "hellp")]) "u1" ∧
    generate_cache_key (.dict [("context", .str "text"), ("prompt", .str "hello")]) "u1"
      ≠ generate_cache_key (.dict [("context", .str "text"), ("prompt", .str "hello")]) "u2" := by
  refine ⟨?_, by decide, by decide⟩
  intro p p' u h
  have hn : pyNormalize (.dict [("request", p), ("user_id", .str u)])
      = pyNormalize (.dict [("request", p'), ("user_id", .str u)]) := by
    simp only [pyNormalize, pyNormalizeKVs, h]
  unfold generate_cache_key json_dumps_sorted
  rw [hn]

/-- C3 witness: two dictionaries built in opposite key orders (also in a
nested mapping) produce the same fingerprint. -/
theorem fingerprint_key_sort_deterministic_witness :
    generate_cache_key
        (.dict [("b", .dict [("y", .int 2), ("x", .int 1)]), ("a", .int 0)]) "u9"
      = generate_cache_key
        (.dict [("a", .int 0), ("b", .dict [("x", .int 1), ("y", .int 2)])]) "u9" :=
  fingerprint_key_sort_deterministic.1 _ _ "u9" rfl

/-- C5: a speech-adapter request with truthy text and a language code outside
the supported set, whose fingerprint has no cached audio and whose user is
admitted, returns the invalid_language validation error carrying the
supported language codes, issues no provider request, and leaves the blob
bucket unchanged. -/
theorem chatterbox_unsupported_language_no_backend
    (cache_enabled : Bool) (post getArtifact : HttpOutcome) (rl : RateDict)
    (bucket : List BlobEntry) (req : PyVal) (u : String) (now : ℤ) (key : String)
    (hallow : (rl_prune now (rlWindow rl u)).length < 10)
    (hkey : generate_cache_key req u = .ok key)
    (hmiss : get_file_cache cache_enabled bucket key = Option.none)
    (htext : optPyTruthy (pyGet req "text") = true)
    (hlang : validate_language (pyGetD req "language" (.str "en")) = false) :
    (chatterbox_process cache_enabled post getArtifact rl bucket req u false now).result
      = .dict [("error", .str ("Unsupported language: " ++ pyStr (pyGetD req "language" (.str "en")))),
               ("error_type", .str "invalid_language"),
               ("from_cache", .bool false),
               ("supported_languages", .list (supported_languages.map (fun l => .str l.1)))] ∧
    (chatterbox_process cache_enabled post getArtifact rl bucket req u false now).backend_calls = 0 ∧
    (chatterbox_process cache_enabled post getArtifact rl bucket req u false now).bucket = bucket := by
  rcases hcr : check_rate_limit 10 rl u now with ⟨b, rl1⟩
  have hb : b = true := by
    have h1 := (check_rate_limit_spec 10 rl u now).1.mpr hallow
    rw [hcr] at h1
    exact h1
  subst hb
  simp only [chatterbox_process, hcr, hkey, hmiss, htext, hlang, Bool.not_true,
    Bool.not_false, Bool.false_eq_true, if_false, if_true]
  exact ⟨trivial, trivial, trivial⟩

set_option maxRecDepth 100000 in
/-- C5 witness: the request with text "hi" and language "xx" against empty
stores returns the invalid_language error with the supported codes and zero
provider calls. -/
theorem chatterbox_unsupported_language_no_backend_witness :
    (chatterbox_process true (.resp 200 (.dict []) []) (.resp 200 (.dict []) []) [] []
        (.dict [("text", .str "hi"), ("language", .str "xx")]) "u1" false 0).result
      = .dict [("error", .str "Unsupported language: xx"),
               ("error_type", .str "invalid_language"),
               ("from_cache", .bool false),
               ("supported_languages", .list (supported_languages.map (fun l => .str l.1)))] ∧
    (chatterbox_process true (.resp 200 (.dict []) []) (.resp 200 (.dict []) []) [] []
        (.dict [("text", .str "hi"), ("language", .str "xx")]) "u1" false 0).backend_calls = 0 := by
  have h := chatterbox_unsupported_language_no_backend true (.resp 200 (.dict []) [])
    (.resp 200 (.dict []) []) [] []
    (.dict [("text", .str "hi"), ("language", .str "xx")]) "u1" 0
    "2a6bce3a24ca45456250318b9a227678f3a2047f7deb663d56aff03c67015c1a"
    (by decide) rfl rfl rfl rfl
  exact ⟨by rw [h.1]; simp [pyGetD, pyGet, pyStr], h.2.1⟩

/-- C9 counterexample: at the concrete non-serializable request below the
caller receives the generic api_error result (the same unclassified tag any
unexpected exception produces, as the backend-failure run shows), not a
dedicated invalid-input kind. -/
theorem fingerprint_serialization_error_not_typed :
    (chatgpt_process [] true 20 (.ok ⟨"ok", 1, 1, 2⟩) [] []
        (.dict [("prompt", .str "hi"), ("blob", .obj "bytes")]) "u1" false 0).result
      = errResult "Object of type bytes is not JSON serializable" "api_error" ∧
    (chatgpt_process [] true 20 (.error "boom") [] []
        (.dict [("prompt", .str "a")]) "u" false 0).result
      = errResult "boom" "api_error" ∧
    "api_error" ≠ "InvalidInput" :=
  ⟨rfl, rfl, by decide⟩

/-- C9 (amended): the fingerprint computation is pure, and its only failure
mode is serialization failure on non-serializable input; when it fails, the
blanket exception handler of the adapter returns the generic api_error
result carrying the TypeError message, with no backend call and no cache
write — no dedicated InvalidInput result kind reaches the caller. -/
theorem fingerprint_failure_is_serialization_and_surfaces_generic
    (contexts : List (String × String))
    (cache_enabled : Bool) (limit : Nat) (backend : Except String ChatCompletion)
    (rl : RateDict) (tbl : List CacheEntry) (req : PyVal) (u : String)
    (force_refresh : Bool) (now : ℤ) (e : String)
    (hallow : (rl_prune now (rlWindow rl u)).length < limit)
    (hkey : generate_cache_key req u = .error e) :
    (∀ (p : PyVal) (v : String),
      (generate_cache_key p v = .error e ↔
        json_dumps_sorted (.dict [("request", p), ("user_id", .str v)]) = .error e)) ∧
    (chatgpt_process contexts cache_enabled limit backend rl tbl req u force_refresh now).result
      = errResult e "api_error" ∧
    (chatgpt_process contexts cache_enabled limit backend rl tbl req u force_refresh
        now).backend_calls = 0 ∧
    (chatgpt_process contexts cache_enabled limit backend rl tbl req u force_refresh
        now).table = tbl := by
  refine ⟨?_, ?_⟩
  · intro p v
    unfold generate_cache_key
    cases hd : json_dumps_sorted (.dict [("request", p), ("user_id", .str v)]) with
    | error e' => simp
    | ok s => simp
  · rcases hcr : check_rate_limit limit rl u now with ⟨b, rl1⟩
    have hb : b = true := by
      have h1 := (check_rate_limit_spec limit rl u now).1.mpr hallow
      rw [hcr] at h1
      exact h1
    subst hb
    simp only [chatgpt_process, hcr, hkey]
    exact ⟨trivial, trivial, trivial⟩

/-- C9 witness: a request containing a bytes object fails serialization and
the admitted call returns the generic api_error result without touching the
backend or the table. -/
theorem fingerprint_failure_surfaces_generic_witness :
    (chatgpt_process [] true 20 (.ok ⟨"ok", 1, 1, 2⟩) [] []
        (.dict [("prompt", .str "hi"), ("blob", .obj "bytes")]) "u1" false 0).result
      = errResult "Object of type bytes is not JSON serializable" "api_error" ∧
    (chatgpt_process [] true 20 (.ok ⟨"ok", 1, 1, 2⟩) [] []
        (.dict [("prompt", .str "hi"), ("blob", .obj "bytes")]) "u1" false 0).backend_calls = 0 :=
  have h := fingerprint_failure_is_serialization_and_surfaces_generic [] true 20
    (.ok ⟨"ok", 1, 1, 2⟩) [] [] (.dict [("prompt", .str "hi"), ("blob", .obj "bytes")])
    "u1" false 0 "Object of type bytes is not JSON serializable" (by decide) rfl
  ⟨h.2.1, h.2.2.1⟩

/-- With caching disabled the chatterbox provider round trip issues at least
one request and cannot touch the bucket. -/
theorem tts_invoke_cache_disabled (post getArtifact : HttpOutcome)
    (bucket : List BlobEntry) (payload : PyVal) (key : String) (t l em : PyVal) :
    1 ≤ (tts_invoke false post getArtifact bucket payload key t l em).2.2 ∧
    (tts_invoke false post getArtifact bucket payload key t l em).2.1 = bucket := by
  unfold tts_invoke
  rcases post with _ | m | ⟨st, body, c⟩
  · exact ⟨le_refl 1, rfl⟩
  · exact ⟨le_refl 1, rfl⟩
  · rcases getArtifact with _ | m2 | ⟨gst, gbody, gc⟩ <;>
      (repeat' split) <;> simp [set_file_cache]

/-- With caching disabled the flux provider round trip issues at least one
request and cannot touch the bucket. -/
theorem flux_invoke_cache_disabled (post getArtifact : HttpOutcome)
    (bucket : List BlobEntry) (req : PyVal) (key : String) (pr : PyVal) :
    1 ≤ (flux_invoke false post getArtifact bucket req key pr).2.2 ∧
    (flux_invoke false post getArtifact bucket req key pr).2.1 = bucket := by
  unfold flux_invoke
  rcases post with _ | m | ⟨st, body, c⟩
  · exact ⟨le_refl 1, rfl⟩
  · exact ⟨le_refl 1, rfl⟩
  · rcases getArtifact with _ | m2 | ⟨gst, gbody, gc⟩ <;>
      (repeat' split) <;> simp [set_file_cache]

/-- C10: with cache_enabled false, cache reads return absent and cache
writes are no-ops without consulting the stores (the table and bucket pass
through untouched for every key and payload), and every admitted request
that passes validation and whose provider message or payload assembles
without a TypeError reaches the backend of its adapter while the stores
stay untouched. -/
theorem cache_disabled_bypasses_stores :
    (∀ (tbl : List CacheEntry) (k : String) (now : ℤ),
        get_text_cache false tbl k now = (Option.none, tbl)) ∧
    (∀ (tbl : List CacheEntry) (k : String) (rq rs : PyVal) (u : String) (now : ℤ),
        set_text_cache false tbl k rq rs u now = tbl) ∧
    (∀ (bucket : List BlobEntry) (k : String),
        get_file_cache false bucket k = Option.none) ∧
    (∀ (bucket : List BlobEntry) (k : String) (d : List Nat) (ct : String),
        set_file_cache false bucket k d ct = bucket) ∧
    (∀ (contexts : List (String × String)) (limit : Nat)
        (backend : Except String ChatCompletion) (rl : RateDict)
        (tbl : List CacheEntry) (req : PyVal) (u : String) (fr : Bool) (now : ℤ)
        (key : String) (ctxt : String),
        (rl_prune now (rlWindow rl u)).length < limit →
        generate_cache_key req u = .ok key →
        gpt_prepare_context contexts req = .ok ctxt →
        isImagecsv (pyGetD req "context" (.str "text")) = false →
        pyTruthy (pyGetD req "prompt" (.str "")) = true →
        (chatgpt_process contexts false limit backend rl tbl req u fr now).backend_calls = 1 ∧
        (chatgpt_process contexts false limit backend rl tbl req u fr now).table = tbl) ∧
    (∀ (post getArtifact : HttpOutcome) (rl : RateDict) (bucket : List BlobEntry)
        (req : PyVal) (u : String) (fr : Bool) (now : ℤ) (key : String),
        (rl_prune now (rlWindow rl u)).length < 10 →
        generate_cache_key req u = .ok key →
        optPyTruthy (pyGet req "text") = true →
        validate_language (pyGetD req "language" (.str "en")) = true →
        validate_emotion (pyGetD req "emotion" (.str "neutral")) = true →
        ∀ (ex : PyVal),
        clampExaggeration (pyGetD req "exaggeration" (.float 1)) = .ok ex →
        1 ≤ (chatterbox_process false post getArtifact rl bucket req u fr now).backend_calls ∧
        (chatterbox_process false post getArtifact rl bucket req u fr now).bucket = bucket) ∧
    (∀ (post getArtifact : HttpOutcome) (rl : RateDict) (bucket : List BlobEntry)
        (req : PyVal) (u : String) (fr : Bool) (now : ℤ) (key : String),
        (rl_prune now (rlWindow rl u)).length < 5 →
        generate_cache_key req u = .ok key →
        optPyTruthy (pyGet req "prompt") = true →
        1 ≤ (flux_process false post getArtifact rl bucket req u fr now).backend_calls ∧
        (flux_process false post getArtifact rl bucket req u fr now).bucket = bucket) := by
  refine ⟨fun tbl k now => rfl, fun tbl k rq rs u now => rfl,
          fun bucket k => rfl, fun bucket k d ct => rfl, ?_, ?_, ?_⟩
  · intro contexts limit backend rl tbl req u fr now key ctxt hallow hkey hprep hni hprompt
    rcases hcr : check_rate_limit limit rl u now with ⟨b, rl1⟩
    have hb : b = true := by
      have h1 := (check_rate_limit_spec limit rl u now).1.mpr hallow
      rw [hcr] at h1
      exact h1
    subst hb
    cases fr <;>
      simp only [chatgpt_process, hcr, hkey, get_text_cache, Bool.not_true, Bool.not_false,
        Bool.false_eq_true, if_false, if_true, gpt_validate_and_call, hprep, hni, hprompt] <;>
      rcases backend with e | resp <;>
        simp [gpt_invoke, set_text_cache, hni]
  · intro post getArtifact rl bucket req u fr now key hallow hkey htext hlang hemo ex hexag
    rcases hcr : check_rate_limit 10 rl u now with ⟨b, rl1⟩
    have hb : b = true := by
      have h1 := (check_rate_limit_spec 10 rl u now).1.mpr hallow
      rw [hcr] at h1
      exact h1
    subst hb
    cases fr <;>
      simp only [chatterbox_process, hcr, hkey, get_file_cache, Bool.not_true, Bool.not_false,
        Bool.false_eq_true, if_false, if_true, htext, hlang, hemo, tts_build_payload, hexag] <;>
      exact tts_invoke_cache_disabled post getArtifact bucket _ key _ _ _
  · intro post getArtifact rl bucket req u fr now key hallow hkey hprompt
    rcases hcr : check_rate_limit 5 rl u now with ⟨b, rl1⟩
    have hb : b = true := by
      have h1 := (check_rate_limit_spec 5 rl u now).1.mpr hallow
      rw [hcr] at h1
      exact h1
    subst hb
    cases fr <;>
      simp only [flux_process, hcr, hkey, get_file_cache, Bool.not_true, Bool.not_false,
        Bool.false_eq_true, if_false, if_true, hprompt] <;>
      exact flux_invoke_cache_disabled post getArtifact bucket req key _

/-- C10 witness: with caching disabled, a valid admitted chatgpt request
reaches the backend exactly once and a pre-populated table row for its
fingerprint survives untouched. -/
theorem cache_disabled_bypasses_stores_witness :
    get_text_cache false [] "k" 0 = (Option.none, []) ∧
    (chatgpt_process [] false 20 (.ok ⟨"ok", 1, 1, 2⟩) []
        [{ cache_key := "f12006cd9246d63878af233c1d30854d9f10bfab0f3f9aefd3f01a84f31ac9d0",
           request_data := .dict [("prompt", .str "a")], response_data := .dict [("old", .int 1)],
           user_id := "u", created_at := 0, accessed_at := 0 }]
        (.dict [("prompt", .str "a")]) "u" false 0).backend_calls = 1 ∧
    (chatgpt_process [] false 20 (.ok ⟨"ok", 1, 1, 2⟩) []
        [{ cache_key := "f12006cd9246d63878af233c1d30854d9f10bfab0f3f9aefd3f01a84f31ac9d0",
           request_data := .dict [("prompt", .str "a")], response_data := .dict [("old", .int 1)],
           user_id := "u", created_at := 0, accessed_at := 0 }]
        (.dict [("prompt", .str "a")]) "u" false 0).table
      = [{ cache_key := "f12006cd9246d63878af233c1d30854d9f10bfab0f3f9aefd3f01a84f31ac9d0",
           request_data := .dict [("prompt", .str "a")], response_data := .dict [("old", .int 1)],
           user_id := "u", created_at := 0, accessed_at := 0 }] :=
  have h := cache_disabled_bypasses_stores.2.2.2.2.1 [] 20 (.ok ⟨"ok", 1, 1, 2⟩) []
    [{ cache_key := "f12006cd9246d63878af233c1d30854d9f10bfab0f3f9aefd3f01a84f31ac9d0",
       request_data := .dict [("prompt", .str "a")], response_data := .dict [("old", .int 1)],
       user_id := "u", created_at := 0, accessed_at := 0 }]
    (.dict [("prompt", .str "a")]) "u" false 0
    "f12006cd9246d63878af233c1d30854d9f10bfab0f3f9aefd3f01a84f31ac9d0" ""
    (by decide) rfl rfl rfl rfl
  ⟨cache_disabled_bypasses_stores.1 [] "k" 0, h.1, h.2⟩

/-- Searching past elements that all fail the test reaches the tail. -/
theorem find?_append_of_none {α : Type} (p : α → Bool) (l₁ l₂ : List α)
    (h : ∀ x ∈ l₁, p x = false) :
    (l₁ ++ l₂).find? p = l₂.find? p := by
  induction l₁ with
  | nil => rfl
  | cons a rest ih =>
    simp only [List.cons_append]
    rw [List.find?_cons_of_neg _ (by simp [h a (by simp)])]
    exact ih (fun x hx => h x (by simp [hx]))

/-- A blob put makes the fresh bytes the readable object of its key. -/
theorem minio_get_set_self (bucket : List BlobEntry) (key : String)
    (data : List Nat) (ct : String) :
    minio_get_file_cache (minio_set_file_cache bucket key data ct) key = some data := by
  unfold minio_get_file_cache minio_set_file_cache
  rw [find?_append_of_none (fun (o : BlobEntry) => o.object_name == key) _ _ ?_]
  · simp
  · intro x hx
    have hmem := List.of_mem_filter hx
    revert hmem
    cases hcmp : x.object_name == key <;> simp [bne, hcmp]

/-- C2 (amended): for each adapter, when the rate limiter admits the call,
caching is enabled and the fingerprint has a pre-populated truthy cache
entry, `process` with force_refresh=false returns that cached payload tagged
from_cache=true and performs no backend call; and with force_refresh=true a
request that passes the validation of the adapter and whose provider message
or payload assembles without a TypeError (string from_lang/to_lang and a
hashable context for chatgpt, a numeric exaggeration for chatterbox) invokes
the backend despite the available hit, and on success the write path still
runs: the blob adapters
then hold the fresh bytes under the fingerprint, while the text adapter
hands the fresh result to set_cache (whose conflict branch, per the
set_cache embedding, overwrites the stored response column with the request
snapshot). -/
theorem force_refresh_bypasses_read_side_only :
    (∀ (contexts : List (String × String)) (limit : Nat)
        (backend : Except String ChatCompletion) (rl : RateDict)
        (tbl : List CacheEntry) (req : PyVal) (u : String) (now : ℤ) (key : String)
        (en : CacheEntry) (kvs : List (String × PyVal)),
        (rl_prune now (rlWindow rl u)).length < limit →
        generate_cache_key req u = .ok key →
        tbl.find? (fun e => e.cache_key == key) = some en →
        en.response_data = .dict kvs → kvs ≠ [] →
        pySetKey en.response_data "from_cache" (.bool true)
            = .ok ((chatgpt_process contexts true limit backend rl tbl req u false now).result) ∧
        (chatgpt_process contexts true limit backend rl tbl req u false now).backend_calls = 0) ∧
    (∀ (post getArtifact : HttpOutcome) (rl : RateDict) (bucket : List BlobEntry)
        (req : PyVal) (u : String) (now : ℤ) (key : String) (ob : BlobEntry),
        (rl_prune now (rlWindow rl u)).length < 10 →
        generate_cache_key req u = .ok key →
        bucket.find? (fun o => o.object_name == key) = some ob →
        ob.data ≠ [] →
        (chatterbox_process true post getArtifact rl bucket req u false now).result
            = tts_cached_result req ob.data ∧
        pyGet (chatterbox_process true post getArtifact rl bucket req u false now).result
            "from_cache" = some (.bool true) ∧
        (chatterbox_process true post getArtifact rl bucket req u false now).backend_calls = 0) ∧
    (∀ (post getArtifact : HttpOutcome) (rl : RateDict) (bucket : List BlobEntry)
        (req : PyVal) (u : String) (now : ℤ) (key : String) (ob : BlobEntry),
        (rl_prune now (rlWindow rl u)).length < 5 →
        generate_cache_key req u = .ok key →
        bucket.find? (fun o => o.object_name == key) = some ob →
        ob.data ≠ [] →
        (flux_process true post getArtifact rl bucket req u false now).result
            = flux_cached_result req ob.data ∧
        pyGet (flux_process true post getArtifact rl bucket req u false now).result
            "from_cache" = some (.bool true) ∧
        (flux_process true post getArtifact rl bucket req u false now).backend_calls = 0) ∧
    (∀ (contexts : List (String × String)) (limit : Nat) (resp : ChatCompletion)
        (rl : RateDict) (tbl : List CacheEntry)
        (req : PyVal) (u : String) (now : ℤ) (key : String) (ctxt : String),
        (rl_prune now (rlWindow rl u)).length < limit →
        generate_cache_key req u = .ok key →
        gpt_prepare_context contexts req = .ok ctxt →
        isImagecsv (pyGetD req "context" (.str "text")) = false →
        pyTruthy (pyGetD req "prompt" (.str "")) = true →
        (chatgpt_process contexts true limit (.ok resp) rl tbl req u true now).backend_calls = 1 ∧
        (chatgpt_process contexts true limit (.ok resp) rl tbl req u true now).result
            = gpt_success_result (pyGetD req "context" (.str "text")) resp ∧
        (chatgpt_process contexts true limit (.ok resp) rl tbl req u true now).table
            = set_cache tbl key req
                (gpt_success_result (pyGetD req "context" (.str "text")) resp) u now) ∧
    (∀ (rl : RateDict) (bucket : List BlobEntry) (req : PyVal) (u : String) (now : ℤ)
        (key : String) (body gbody : PyVal) (c content : List Nat),
        (rl_prune now (rlWindow rl u)).length < 10 →
        generate_cache_key req u = .ok key →
        optPyTruthy (pyGet req "text") = true →
        validate_language (pyGetD req "language" (.str "en")) = true →
        validate_emotion (pyGetD req "emotion" (.str "neutral")) = true →
        (pyGet body "audio_id").isSome = true →
        ∀ (ex : PyVal),
        clampExaggeration (pyGetD req "exaggeration" (.float 1)) = .ok ex →
        (chatterbox_process true (.resp 200 body c) (.resp 200 gbody content)
            rl bucket req u true now).backend_calls = 2 ∧
        (chatterbox_process true (.resp 200 body c) (.resp 200 gbody content)
            rl bucket req u true now).bucket
          = minio_set_file_cache bucket key content "audio/wav" ∧
        minio_get_file_cache
            ((chatterbox_process true (.resp 200 body c) (.resp 200 gbody content)
              rl bucket req u true now).bucket) key = some content) ∧
    (∀ (rl : RateDict) (bucket : List BlobEntry) (req : PyVal) (u : String) (now : ℤ)
        (key : String) (body gbody : PyVal) (c content : List Nat),
        (rl_prune now (rlWindow rl u)).length < 5 →
        generate_cache_key req u = .ok key →
        optPyTruthy (pyGet req "prompt") = true →
        (pyGet body "image_id").isSome = true →
        (flux_process true (.resp 200 body c) (.resp 200 gbody content)
            rl bucket req u true now).backend_calls = 2 ∧
        (flux_process true (.resp 200 body c) (.resp 200 gbody content)
            rl bucket req u true now).bucket
          = minio_set_file_cache bucket key content "image/png" ∧
        minio_get_file_cache
            ((flux_process true (.resp 200 body c) (.resp 200 gbody content)
              rl bucket req u true now).bucket) key = some content) := by
  refine ⟨?_, ?_, ?_, ?_, ?_, ?_⟩
  · intro contexts limit backend rl tbl req u now key en kvs hallow hkey hfind hdict hne
    have hempty : kvs.isEmpty = false := by
      cases kvs
      · exact absurd rfl hne
      · rfl
    rcases hcr : check_rate_limit limit rl u now with ⟨b, rl1⟩
    have hb : b = true := by
      have h1 := (check_rate_limit_spec limit rl u now).1.mpr hallow
      rw [hcr] at h1
      exact h1
    subst hb
    simp only [chatgpt_process, hcr, hkey, get_text_cache, get_cache, hfind, hdict,
      Option.map_some', pyTruthy, hempty, Bool.not_false, Bool.not_true,
      Bool.false_eq_true, if_false, if_true, pySetKey]
    exact ⟨by trivial, by trivial⟩
  · intro post getArtifact rl bucket req u now key ob hallow hkey hfind hne
    have hempty : ob.data.isEmpty = false := by
      cases h : ob.data
      · exact absurd h hne
      · rfl
    rcases hcr : check_rate_limit 10 rl u now with ⟨b, rl1⟩
    have hb : b = true := by
      have h1 := (check_rate_limit_spec 10 rl u now).1.mpr hallow
      rw [hcr] at h1
      exact h1
    subst hb
    simp only [chatterbox_process, hcr, hkey, get_file_cache, minio_get_file_cache, hfind,
      Option.map_some', hempty, Bool.not_false, Bool.not_true, Bool.false_eq_true,
      if_false, if_true]
    exact ⟨by trivial, by trivial, by trivial⟩
  · intro post getArtifact rl bucket req u now key ob hallow hkey hfind hne
    have hempty : ob.data.isEmpty = false := by
      cases h : ob.data
      · exact absurd h hne
      · rfl
    rcases hcr : check_rate_limit 5 rl u now with ⟨b, rl1⟩
    have hb : b = true := by
      have h1 := (check_rate_limit_spec 5 rl u now).1.mpr hallow
      rw [hcr] at h1
      exact h1
    subst hb
    simp only [flux_process, hcr, hkey, get_file_cache, minio_get_file_cache, hfind,
      Option.map_some', hempty, Bool.not_false, Bool.not_true, Bool.false_eq_true,
      if_false, if_true]
    exact ⟨by trivial, by trivial, by trivial⟩
  · intro contexts limit resp rl tbl req u now key ctxt hallow hkey hprep hni hprompt
    rcases hcr : check_rate_limit limit rl u now with ⟨b, rl1⟩
    have hb : b = true := by
      have h1 := (check_rate_limit_spec limit rl u now).1.mpr hallow
      rw [hcr] at h1
      exact h1
    subst hb
    simp only [chatgpt_process, hcr, hkey, gpt_validate_and_call, hprep, hni, hprompt,
      Bool.not_true, Bool.not_false, Bool.false_eq_true, if_false, if_true,
      gpt_invoke, set_text_cache]
    exact ⟨by trivial, by trivial, by trivial⟩
  · intro rl bucket req u now key body gbody c content hallow hkey htext hlang hemo haid ex hexag
    have hnone : (pyGet body "audio_id").isNone = false := by
      rcases h : pyGet body "audio_id" with _ | v
      · rw [h] at haid
        exact absurd haid (by simp)
      · rfl
    rcases hcr : check_rate_limit 10 rl u now with ⟨b, rl1⟩
    have hb : b = true := by
      have h1 := (check_rate_limit_spec 10 rl u now).1.mpr hallow
      rw [hcr] at h1
      exact h1
    subst hb
    simp only [chatterbox_process, hcr, hkey, htext, hlang, hemo, Bool.not_true,
      Bool.not_false, Bool.false_eq_true, if_false, if_true, tts_build_payload,
      hexag, tts_invoke, ne_eq, not_true_eq_false, hnone, set_file_cache]
    refine ⟨by trivial, by trivial, ?_⟩
    exact minio_get_set_self bucket key content "audio/wav"
  · intro rl bucket req u now key body gbody c content hallow hkey hprompt haid
    have hnone : (pyGet body "image_id").isNone = false := by
      rcases h : pyGet body "image_id" with _ | v
      · rw [h] at haid
        exact absurd haid (by simp)
      · rfl
    rcases hcr : check_rate_limit 5 rl u now with ⟨b, rl1⟩
    have hb : b = true := by
      have h1 := (check_rate_limit_spec 5 rl u now).1.mpr hallow
      rw [hcr] at h1
      exact h1
    subst hb
    simp only [flux_process, hcr, hkey, hprompt, Bool.not_true,
      Bool.not_false, Bool.false_eq_true, if_false, if_true, flux_invoke,
      ne_eq, not_true_eq_false, hnone, set_file_cache]
    refine ⟨by trivial, by trivial, ?_⟩
    exact minio_get_set_self bucket key content "image/png"

set_option maxRecDepth 400000 in
/-- C2 counterexample: with a pre-populated cache entry for the request
fingerprint, (a) a rate-limited call returns the rate_limit error rather
than the cached payload even with force_refresh=false, (b) a request
failing validation does not invoke the backend even with force_refresh=true,
(c) an "imagecsv"-context request invokes the backend but its fresh result
is not written to the cache (the table is unchanged and still holds the old
payload), and (d) for a cacheable context the conflict upsert stores the
request snapshot, not the fresh result. -/
theorem force_refresh_claim_fails_as_stated :
    (generate_cache_key (.dict [("context", .str "text"), ("prompt", .str "hello")]) "u1"
        = .ok "05e39b91aa2fcccb72d2268521a746a0593e2d38841e4c13f229ca22c755d098" ∧
     (chatgpt_process [] true 20 (.ok ⟨"fresh", 1, 1, 2⟩)
        [("u1", List.replicate 20 (0 : ℤ))]
        [{ cache_key := "05e39b91aa2fcccb72d2268521a746a0593e2d38841e4c13f229ca22c755d098",
           request_data := .dict [("context", .str "text"), ("prompt", .str "hello")],
           response_data := .dict [("cached", .int 1)], user_id := "u1",
           created_at := 0, accessed_at := 0 }]
        (.dict [("context", .str "text"), ("prompt", .str "hello")]) "u1" false 1).result
        = errResult "Rate limit exceeded" "rate_limit" ∧
     (chatgpt_process [] true 20 (.ok ⟨"fresh", 1, 1, 2⟩)
        [("u1", List.replicate 20 (0 : ℤ))]
        [{ cache_key := "05e39b91aa2fcccb72d2268521a746a0593e2d38841e4c13f229ca22c755d098",
           request_data := .dict [("context", .str "text"), ("prompt", .str "hello")],
           response_data := .dict [("cached", .int 1)], user_id := "u1",
           created_at := 0, accessed_at := 0 }]
        (.dict [("context", .str "text"), ("prompt", .str "hello")]) "u1" false 1).backend_calls
        = 0) ∧
    (generate_cache_key (.dict [("context", .str "text")]) "u1"
        = .ok "faffe98c71c31e4c00b6235b7360f6d76e703f1d74361837047c667891790b94" ∧
     (chatgpt_process [] true 20 (.ok ⟨"fresh", 1, 1, 2⟩) []
        [{ cache_key := "faffe98c71c31e4c00b6235b7360f6d76e703f1d74361837047c667891790b94",
           request_data := .dict [("context", .str "text")],
           response_data := .dict [("cached", .int 1)], user_id := "u1",
           created_at := 0, accessed_at := 0 }]
        (.dict [("context", .str "text")]) "u1" true 1).result
        = errResult "Prompt is required" "missing_prompt" ∧
     (chatgpt_process [] true 20 (.ok ⟨"fresh", 1, 1, 2⟩) []
        [{ cache_key := "faffe98c71c31e4c00b6235b7360f6d76e703f1d74361837047c667891790b94",
           request_data := .dict [("context", .str "text")],
           response_data := .dict [("cached", .int 1)], user_id := "u1",
           created_at := 0, accessed_at := 0 }]
        (.dict [("context", .str "text")]) "u1" true 1).backend_calls = 0) ∧
    (generate_cache_key (.dict [("context", .str "imagecsv"), ("image_data", .str "zz")]) "u1"
        = .ok "5e82b440475718ab1cde22223c4b2adb0b41aa1b44a1e9b3446a80eacbe55b9e" ∧
     (chatgpt_process [] true 20 (.ok ⟨"fresh", 1, 1, 2⟩) []
        [{ cache_key := "5e82b440475718ab1cde22223c4b2adb0b41aa1b44a1e9b3446a80eacbe55b9e",
           request_data := .dict [("context", .str "imagecsv"), ("image_data", .str "zz")],
           response_data := .dict [("cached", .int 1)], user_id := "u1",
           created_at := 0, accessed_at := 0 }]
        (.dict [("context", .str "imagecsv"), ("image_data", .str "zz")]) "u1" true 1).backend_calls
        = 1 ∧
     (chatgpt_process [] true 20 (.ok ⟨"fresh", 1, 1, 2⟩) []
        [{ cache_key := "5e82b440475718ab1cde22223c4b2adb0b41aa1b44a1e9b3446a80eacbe55b9e",
           request_data := .dict [("context", .str "imagecsv"), ("image_data", .str "zz")],
           response_data := .dict [("cached", .int 1)], user_id := "u1",
           created_at := 0, accessed_at := 0 }]
        (.dict [("context", .str "imagecsv"), ("image_data", .str "zz")]) "u1" true 1).table
        = [{ cache_key := "5e82b440475718ab1cde22223c4b2adb0b41aa1b44a1e9b3446a80eacbe55b9e",
             request_data := .dict [("context", .str "imagecsv"), ("image_data", .str "zz")],
             response_data := .dict [("cached", .int 1)], user_id := "u1",
             created_at := 0, accessed_at := 0 }] ∧
     (PyVal.dict [("cached", .int 1)])
        ≠ gpt_success_result (.str "imagecsv") ⟨"fresh", 1, 1, 2⟩) ∧
    (generate_cache_key (.dict [("prompt", .str "hello")]) "u1"
        = .ok "5636450267bf82b177074b2fab4ca6b1fed784fd18a4eb631c2d8495dcb19e0f" ∧
     (chatgpt_process [] true 20 (.ok ⟨"fresh", 1, 1, 2⟩) []
        [{ cache_key := "5636450267bf82b177074b2fab4ca6b1fed784fd18a4eb631c2d8495dcb19e0f",
           request_data := .none, response_data := .dict [("cached", .int 1)],
           user_id := "u1", created_at := 0, accessed_at := 0 }]
        (.dict [("prompt", .str "hello")]) "u1" true 7).backend_calls = 1 ∧
     (chatgpt_process [] true 20 (.ok ⟨"fresh", 1, 1, 2⟩) []
        [{ cache_key := "5636450267bf82b177074b2fab4ca6b1fed784fd18a4eb631c2d8495dcb19e0f",
           request_data := .none, response_data := .dict [("cached", .int 1)],
           user_id := "u1", created_at := 0, accessed_at := 0 }]
        (.dict [("prompt", .str "hello")]) "u1" true 7).table
        = [{ cache_key := "5636450267bf82b177074b2fab4ca6b1fed784fd18a4eb631c2d8495dcb19e0f",
             request_data := .none, response_data := .dict [("prompt", .str "hello")],
             user_id := "u1", created_at := 0, accessed_at := 7 }] ∧
     (PyVal.dict [("prompt", .str "hello")])
        ≠ gpt_success_result (.str "text") ⟨"fresh", 1, 1, 2⟩) :=
  ⟨⟨rfl, rfl, rfl⟩, ⟨rfl, rfl, rfl⟩,
   ⟨rfl, rfl, rfl, by simp [gpt_success_result]⟩,
   ⟨rfl, rfl, rfl, by simp [gpt_success_result]⟩⟩

set_option maxRecDepth 400000 in
/-- C2 witness: concrete admitted runs of the three adapters, with a truthy
pre-populated entry on the read side (cached payload returned tagged, zero
backend calls) and a valid request on the force-refresh write side (backend
invoked, write path still performed). -/
theorem force_refresh_bypasses_read_side_only_witness :
    (pySetKey (.dict [("r", .int 1)]) "from_cache" (.bool true)
        = .ok ((chatgpt_process [] true 20 (.ok ⟨"ok", 1, 1, 2⟩) []
            [{ cache_key := "f12006cd9246d63878af233c1d30854d9f10bfab0f3f9aefd3f01a84f31ac9d0",
               request_data := .dict [("prompt", .str "a")],
               response_data := .dict [("r", .int 1)], user_id := "u",
               created_at := 0, accessed_at := 0 }]
            (.dict [("prompt", .str "a")]) "u" false 0).result) ∧
     (chatgpt_process [] true 20 (.ok ⟨"ok", 1, 1, 2⟩) []
        [{ cache_key := "f12006cd9246d63878af233c1d30854d9f10bfab0f3f9aefd3f01a84f31ac9d0",
           request_data := .dict [("prompt", .str "a")],
           response_data := .dict [("r", .int 1)], user_id := "u",
           created_at := 0, accessed_at := 0 }]
        (.dict [("prompt", .str "a")]) "u" false 0).backend_calls = 0) ∧
    ((chatterbox_process true (.resp 200 (.dict []) []) (.resp 200 (.dict []) [])
        [] [{ object_name := "a2a1aad1da724f9c13731cb0dcac45546def0ecd88f9b9bb94f79f15d3876675",
              data := [1, 2], content_type := "audio/wav" }]
        (.dict [("text", .str "a")]) "u" false 0).result
        = tts_cached_result (.dict [("text", .str "a")]) [1, 2] ∧
     (chatterbox_process true (.resp 200 (.dict []) []) (.resp 200 (.dict []) [])
        [] [{ object_name := "a2a1aad1da724f9c13731cb0dcac45546def0ecd88f9b9bb94f79f15d3876675",
              data := [1, 2], content_type := "audio/wav" }]
        (.dict [("text", .str "a")]) "u" false 0).backend_calls = 0) ∧
    ((flux_process true (.resp 200 (.dict []) []) (.resp 200 (.dict []) [])
        [] [{ object_name := "f12006cd9246d63878af233c1d30854d9f10bfab0f3f9aefd3f01a84f31ac9d0",
              data := [3], content_type := "image/png" }]
        (.dict [("prompt", .str "a")]) "u" false 0).result
        = flux_cached_result (.dict [("prompt", .str "a")]) [3] ∧
     (flux_process true (.resp 200 (.dict []) []) (.resp 200 (.dict []) [])
        [] [{ object_name := "f12006cd9246d63878af233c1d30854d9f10bfab0f3f9aefd3f01a84f31ac9d0",
              data := [3], content_type := "image/png" }]
        (.dict [("prompt", .str "a")]) "u" false 0).backend_calls = 0) ∧
    ((chatgpt_process [] true 20 (.ok ⟨"ok", 1, 1, 2⟩) [] []
        (.dict [("prompt", .str "a")]) "u" true 0).backend_calls = 1 ∧
     (chatgpt_process [] true 20 (.ok ⟨"ok", 1, 1, 2⟩) [] []
        (.dict [("prompt", .str "a")]) "u" true 0).table
        = set_cache [] "f12006cd9246d63878af233c1d30854d9f10bfab0f3f9aefd3f01a84f31ac9d0"
            (.dict [("prompt", .str "a")])
            (gpt_success_result (pyGetD (.dict [("prompt", .str "a")]) "context" (.str "text"))
              ⟨"ok", 1, 1, 2⟩) "u" 0) ∧
    ((chatterbox_process true (.resp 200 (.dict [("audio_id", .str "x")]) [])
        (.resp 200 (.dict []) [9]) [] []
        (.dict [("text", .str "a"), ("exaggeration", .int 1)]) "u" true 0).backend_calls = 2 ∧
     minio_get_file_cache
        ((chatterbox_process true (.resp 200 (.dict [("audio_id", .str "x")]) [])
          (.resp 200 (.dict []) [9]) [] []
          (.dict [("text", .str "a"), ("exaggeration", .int 1)]) "u" true 0).bucket)
        "e3573a42b1b2866be70fad48c523fb512892b94b9eff8621b6794725d46d4d4d" = some [9]) ∧
    ((flux_process true (.resp 200 (.dict [("image_id", .str "x")]) [])
        (.resp 200 (.dict []) [8]) [] [] (.dict [("prompt", .str "a")]) "u" true 0).backend_calls = 2 ∧
     minio_get_file_cache
        ((flux_process true (.resp 200 (.dict [("image_id", .str "x")]) [])
          (.resp 200 (.dict []) [8]) [] [] (.dict [("prompt", .str "a")]) "u" true 0).bucket)
        "f12006cd9246d63878af233c1d30854d9f10bfab0f3f9aefd3f01a84f31ac9d0" = some [8]) := by
  refine ⟨?_, ?_, ?_, ?_, ?_, ?_⟩
  · have h := force_refresh_bypasses_read_side_only.1 [] 20 (.ok ⟨"ok", 1, 1, 2⟩) []
      [{ cache_key := "f12006cd9246d63878af233c1d30854d9f10bfab0f3f9aefd3f01a84f31ac9d0",
         request_data := .dict [("prompt", .str "a")],
         response_data := .dict [("r", .int 1)], user_id := "u",
         created_at := 0, accessed_at := 0 }]
      (.dict [("prompt", .str "a")]) "u" 0
      "f12006cd9246d63878af233c1d30854d9f10bfab0f3f9aefd3f01a84f31ac9d0"
      _ [("r", .int 1)] (by decide) rfl rfl rfl (by simp)
    exact ⟨h.1, h.2⟩
  · have h := force_refresh_bypasses_read_side_only.2.1 (.resp 200 (.dict []) [])
      (.resp 200 (.dict []) []) []
      [{ object_name := "a2a1aad1da724f9c13731cb0dcac45546def0ecd88f9b9bb94f79f15d3876675",
         data := [1, 2], content_type := "audio/wav" }]
      (.dict [("text", .str "a")]) "u" 0
      "a2a1aad1da724f9c13731cb0dcac45546def0ecd88f9b9bb94f79f15d3876675"
      _ (by decide) rfl rfl (by simp)
    exact ⟨h.1, h.2.2⟩
  · have h := force_refresh_bypasses_read_side_only.2.2.1 (.resp 200 (.dict []) [])
      (.resp 200 (.dict []) []) []
      [{ object_name := "f12006cd9246d63878af233c1d30854d9f10bfab0f3f9aefd3f01a84f31ac9d0",
         data := [3], content_type := "image/png" }]
      (.dict [("prompt", .str "a")]) "u" 0
      "f12006cd9246d63878af233c1d30854d9f10bfab0f3f9aefd3f01a84f31ac9d0"
      _ (by decide) rfl rfl (by simp)
    exact ⟨h.1, h.2.2⟩
  · have h := force_refresh_bypasses_read_side_only.2.2.2.1 [] 20 ⟨"ok", 1, 1, 2⟩ [] []
      (.dict [("prompt", .str "a")]) "u" 0
      "f12006cd9246d63878af233c1d30854d9f10bfab0f3f9aefd3f01a84f31ac9d0" ""
      (by decide) rfl rfl rfl rfl
    exact ⟨h.1, h.2.2⟩
  · have h := force_refresh_bypasses_read_side_only.2.2.2.2.1 [] []
      (.dict [("text", .str "a"), ("exaggeration", .int 1)]) "u" 0
      "e3573a42b1b2866be70fad48c523fb512892b94b9eff8621b6794725d46d4d4d"
      (.dict [("audio_id", .str "x")]) (.dict []) [] [9]
      (by decide) rfl rfl rfl rfl rfl (.int 1) rfl
    refine ⟨h.1, ?_⟩
    rw [h.2.1]
    exact minio_get_set_self [] _ [9] "audio/wav"
  · have h := force_refresh_bypasses_read_side_only.2.2.2.2.2 [] []
      (.dict [("prompt", .str "a")]) "u" 0
      "f12006cd9246d63878af233c1d30854d9f10bfab0f3f9aefd3f01a84f31ac9d0"
      (.dict [("image_id", .str "x")]) (.dict []) [] [8]
      (by decide) rfl rfl rfl
    refine ⟨h.1, ?_⟩
    rw [h.2.1]
    exact minio_get_set_self [] _ [8] "image/png"
